import Mathlib

/-!
Verification development for the fraud-risk assessment and case-orchestration
pipeline of an unemployment-insurance claims system.  The TypeScript services
(`BusinessRulesEngine`, `RealTimeRiskScoring`, `PatternDetectionEngine`,
`CaseManagementService`, `EnterpriseFraudAnalyzer`) are shallowly embedded as
executable Lean definitions.  JavaScript numbers are modelled as rationals
(`ℚ`), timestamps as epoch milliseconds (`Int`), and the nondeterministic
collaborators (mocked database lookups, random id generation, the external
cross-match and AI-scoring services) as explicit environment parameters.
-/

namespace FraudIQ

/-! ## A small model of the JavaScript values flowing through the rule engine -/

/-- JavaScript values as they occur in rule conditions and evaluation
contexts: numbers (rationals; `NaN` is represented by coercion failure, see
`jsToNumber`), strings, booleans, `undefined`, arrays and plain objects. -/
inductive JsVal where
  | num (q : ℚ)
  | str (s : String)
  | boolV (b : Bool)
  | undefined
  | listV (l : List JsVal)
  | obj (fields : List (String × JsVal))
deriving Repr

/-- Character-list version of substring search (used to model
`String.prototype.includes`). -/
def startsWithList : List Char → List Char → Bool
  | _, [] => true
  | [], _ :: _ => false
  | a :: as, b :: bs => a = b && startsWithList as bs

/-- Model of `String.prototype.includes`: does `pat` occur in `s`? -/
def containsList : List Char → List Char → Bool
  | [], pat => pat.isEmpty
  | a :: rest, pat => startsWithList (a :: rest) pat || containsList rest pat

/-- Model of `s.includes(pat)` for strings. -/
def strContains (s pat : String) : Bool :=
  containsList s.toList pat.toList

/-- Accumulate a decimal digit string into a number; any non-digit character
fails the parse. -/
def parseDigitsAux : List Char → Nat → Option Nat
  | [], acc => some acc
  | c :: rest, acc =>
      if c.isDigit then parseDigitsAux rest (acc * 10 + (c.toNat - 48))
      else none

/-- Model of `Number(s)` for the string shapes appearing in the engine: the
empty string coerces to `0`, decimal digit strings to their value, everything
else to `NaN` (`none`).  Fractional or signed numeric strings never occur in
the rule catalog or contexts of this system. -/
def strToNum? (s : String) : Option ℚ :=
  if s = "" then some 0
  else (parseDigitsAux s.toList 0).map (fun n => (n : ℚ))

/-- Model of JavaScript `Number(v)` coercion; `none` stands for `NaN`.
`Number([])` would be `0` in JavaScript, but arrays and objects are never
compared numerically by the rule catalog, so both are modelled as `NaN`. -/
def jsToNumber : JsVal → Option ℚ
  | .num q => some q
  | .str s => strToNum? s
  | .boolV b => some (if b then 1 else 0)
  | .undefined => none
  | .listV _ => none
  | .obj _ => none

/-- Model of JavaScript strict equality `===` on the value shapes used by the
rules.  Arrays and objects compare by reference in JavaScript; no rule in the
catalog compares them, so they are modelled as never strictly equal. -/
def jsStrictEq : JsVal → JsVal → Bool
  | .num a, .num b => a = b
  | .str a, .str b => a = b
  | .boolV a, .boolV b => a = b
  | .undefined, .undefined => true
  | _, _ => false

/-- Model of JavaScript `String(v)` coercion, used only by the `CONTAINS`
operator.  The decimal rendering of a rational approximates JavaScript number
formatting; no default rule uses `CONTAINS` on numbers. -/
def jsToString : JsVal → String
  | .num q => toString q
  | .str s => s
  | .boolV b => if b then "true" else "false"
  | .undefined => "undefined"
  | .listV _ => ""
  | .obj _ => "[object Object]"

/-- Model of JavaScript truthiness, used by the orchestrator's
`contextData?.justification_text` guard. -/
def jsTruthy : JsVal → Bool
  | .num q => q ≠ 0
  | .str s => s ≠ ""
  | .boolV b => b
  | .undefined => false
  | .listV _ => true
  | .obj _ => true

/-- Comparison `a > b` where either side may be `NaN` (`none`); any comparison
with `NaN` is false in JavaScript. -/
def numGt : Option ℚ → Option ℚ → Bool
  | some a, some b => a > b
  | _, _ => false

/-- Comparison `a < b` with `NaN` propagation as in `numGt`. -/
def numLt : Option ℚ → Option ℚ → Bool
  | some a, some b => a < b
  | _, _ => false

/-! ## Business-rule data model (`types/enterprise.ts` / `BusinessRulesEngine`) -/

/-- Condition operators supported by `BusinessRulesEngine.evaluateCondition`. -/
inductive RuleOperator where
  | EQUALS | NOT_EQUALS | GREATER_THAN | LESS_THAN
  | CONTAINS | REGEX | IN_LIST | NOT_IN_LIST
deriving DecidableEq, Repr

/-- One rule condition: `(fieldName, operator, value)`.  The unused
per-condition `logicalOperator` metadata field is omitted — the engine never
consults it. -/
structure RuleCondition where
  conditionId : String
  fieldName : String
  operator : RuleOperator
  value : JsVal

/-- Rule actions with their used parameters.  `ADD_SCORE` keeps its score
optional to mirror `action.parameters.score || 0`. -/
inductive RuleAction where
  | SET_FLAG (flag severity : String)
  | ADD_SCORE (score : Option ℚ)
  | BLOCK_CLAIM (reason : String)
  | REQUIRE_VERIFICATION (verificationType : String)
  | CREATE_CASE (caseType priority : String)
  | SEND_ALERT (alertType : String)

/-- A business rule.  Audit-only metadata (`createdBy`, modification dates,
`effectiveDate`, `ruleType`) is omitted: the evaluator reads none of it. -/
structure BusinessRule where
  ruleId : String
  ruleName : String
  category : String
  description : String
  conditions : List RuleCondition
  actions : List RuleAction
  severity : String
  isActive : Bool

/-- Risk levels `LOW | MEDIUM | HIGH | CRITICAL` (also used for priorities). -/
inductive RiskLevel where
  | LOW | MEDIUM | HIGH | CRITICAL
deriving DecidableEq, Repr

/-- One named contributor to a risk score. -/
structure RiskFactor where
  factorId : String
  factorName : String
  category : String
  impact : ℚ
  confidence : ℚ
  description : String
  evidence : List String
deriving DecidableEq, Repr

/-- The assessment record produced by the engines and the orchestrator.
Generated-identifier fields (`assessmentId`, `assessmentDate`, model-version
strings) are omitted; they carry no evaluated content. -/
structure RiskAssessmentResult where
  claimId : String
  claimantId : String
  overallRiskScore : ℚ
  riskLevel : RiskLevel
  riskFactors : List RiskFactor
  recommendedActions : List String
  requiresInvestigation : Bool
  autoApprovalEligible : Bool
  confidenceScore : ℚ
deriving DecidableEq, Repr

/-! ## Entity records (fields actually read by the embedded services) -/

/-- A benefit claim; only the fields the embedded services read are kept.
`createdDate` is epoch milliseconds. -/
structure BenefitsClaim where
  claimId : String
  claimantId : String
  weeklyBenefitAmount : ℚ
  createdDate : Int
  ipAddress : Option String
  employerId : Option String
deriving DecidableEq, Repr

/-- A claimant profile; only the fields the embedded services read are kept.
`accountCreationDate` is epoch milliseconds. -/
structure ClaimantProfile where
  claimantId : String
  ssn : String
  riskScore : ℚ
  accountCreationDate : Int
deriving DecidableEq, Repr

/-- An employer record; the engine only reads `riskLevel` (a string enum). -/
structure EmployerRecord where
  employerId : String
  riskLevel : String
deriving DecidableEq, Repr

/-! ## BusinessRulesEngine -/

/-- An evaluation context: the merged object the engine builds from context
data and derived metrics, modelled as a first-match association list (entries
listed earlier shadow later ones, mirroring later spread keys overriding
earlier ones). -/
abbrev EvalContext := List (String × JsVal)

/-- First-match lookup in an association list, `undefined` when absent. -/
def lookupJs (k : String) : EvalContext → JsVal
  | [] => .undefined
  | (k', v) :: rest => if k' = k then v else lookupJs k rest

/-- Walk into nested objects for dotted field paths (`value?.[part]`). -/
def walkPath : JsVal → List String → JsVal
  | v, [] => v
  | .obj fields, k :: rest => walkPath (lookupJs k fields) rest
  | _, _ :: _ => .undefined

/-- Split a character list at dots (model of `fieldName.split('.')`). -/
def splitDotAux : List Char → List Char → List String
  | [], acc => [String.mk acc.reverse]
  | c :: rest, acc =>
      if c = '.' then String.mk acc.reverse :: splitDotAux rest []
      else splitDotAux rest (c :: acc)

/-- Model of `fieldName.split('.')`. -/
def splitDot (s : String) : List String :=
  splitDotAux s.toList []

/-- `getFieldValue`: dotted-path field access over the evaluation context. -/
def getFieldValue (fieldName : String) (ctx : EvalContext) : JsVal :=
  match splitDot fieldName with
  | [] => .undefined
  | k :: rest => walkPath (lookupJs k ctx) rest

/-- Model of `Array.prototype.includes` (SameValueZero; `NaN` cannot occur in
the modelled list values, so strict equality suffices). -/
def jsListIncludes (l : List JsVal) (v : JsVal) : Bool :=
  l.any (fun x => jsStrictEq x v)

/-- `evaluateCondition`: one condition against a field value.  The `REGEX`
operator delegates to an oracle `regexTest pattern input` standing for
`new RegExp(pattern).test(input)`. -/
def evaluateCondition (regexTest : String → String → Bool)
    (condition : RuleCondition) (fieldValue : JsVal) : Bool :=
  match condition.operator with
  | .EQUALS => jsStrictEq fieldValue condition.value
  | .NOT_EQUALS => !jsStrictEq fieldValue condition.value
  | .GREATER_THAN => numGt (jsToNumber fieldValue) (jsToNumber condition.value)
  | .LESS_THAN => numLt (jsToNumber fieldValue) (jsToNumber condition.value)
  | .CONTAINS => strContains (jsToString fieldValue) (jsToString condition.value)
  | .REGEX => regexTest (jsToString condition.value) (jsToString fieldValue)
  | .IN_LIST =>
      match condition.value with
      | .listV l => jsListIncludes l fieldValue
      | _ => false
  | .NOT_IN_LIST =>
      match condition.value with
      | .listV l => !jsListIncludes l fieldValue
      | _ => false

/-- `evaluateRuleConditions`: all conditions must hold (AND-only logic). -/
def evaluateRuleConditions (regexTest : String → String → Bool)
    (conditions : List RuleCondition) (ctx : EvalContext) : Bool :=
  conditions.all (fun condition =>
    evaluateCondition regexTest condition (getFieldValue condition.fieldName ctx))

/-- `calculateImpactScore`: severity-to-impact weights. -/
def calculateImpactScore (severity : String) : ℚ :=
  if severity = "CRITICAL" then 100
  else if severity = "ERROR" then 75
  else if severity = "WARNING" then 50
  else if severity = "INFO" then 25
  else 0

/-- `BusinessRulesEngine.determineRiskLevel`: blocking forces CRITICAL,
otherwise 200/100/50 thresholds. -/
def determineRiskLevelBRE (score : ℚ) (shouldBlock : Bool) : RiskLevel :=
  if shouldBlock = true ∨ score ≥ 200 then .CRITICAL
  else if score ≥ 100 then .HIGH
  else if score ≥ 50 then .MEDIUM
  else .LOW

/-- The description string `executeRuleAction` returns for each action. -/
def actionDescription : RuleAction → String
  | .SET_FLAG flag severity => "Set flag: " ++ flag ++ " (" ++ severity ++ ")"
  | .ADD_SCORE score => "Added risk score: " ++ toString (score.getD 0)
  | .BLOCK_CLAIM reason => "Blocked claim: " ++ reason
  | .REQUIRE_VERIFICATION verificationType => "Required verification: " ++ verificationType
  | .CREATE_CASE caseType priority => "Created case: " ++ caseType ++ " (" ++ priority ++ ")"
  | .SEND_ALERT alertType => "Sent alert: " ++ alertType

/-- Running state of one `evaluateRules` call: cumulative score, blocking and
investigation flags, and the risk factors emitted so far. -/
structure RuleEvalState where
  score : ℚ
  blocked : Bool
  requiresInvestigation : Bool
  factors : List RiskFactor
deriving Repr

/-- Effect of one executed rule action on the running evaluation state. -/
def applyRuleAction (st : RuleEvalState) : RuleAction → RuleEvalState
  | .ADD_SCORE score => { st with score := st.score + score.getD 0 }
  | .BLOCK_CLAIM _ => { st with blocked := true }
  | .CREATE_CASE _ _ => { st with requiresInvestigation := true }
  | .REQUIRE_VERIFICATION _ => { st with requiresInvestigation := true }
  | _ => st

/-- The risk factor emitted for a triggered rule: impact from the severity
weight table, fixed 0.95 confidence, evidence from the action descriptions. -/
def mkRuleFactor (rule : BusinessRule) : RiskFactor :=
  { factorId := rule.ruleId
    factorName := rule.ruleName
    category := rule.category
    impact := calculateImpactScore rule.severity
    confidence := 95 / 100
    description := rule.description
    evidence := rule.actions.map actionDescription }

/-- Process one rule: when all conditions hold, execute its actions in order
and append its risk factor. -/
def processRule (regexTest : String → String → Bool) (ctx : EvalContext)
    (st : RuleEvalState) (rule : BusinessRule) : RuleEvalState :=
  if evaluateRuleConditions regexTest rule.conditions ctx then
    let st' := rule.actions.foldl applyRuleAction st
    { st' with factors := st'.factors ++ [mkRuleFactor rule] }
  else st

/-- Evaluate every active rule in definition order. -/
def ruleEvalOutcome (regexTest : String → String → Bool)
    (rules : List BusinessRule) (ctx : EvalContext) : RuleEvalState :=
  (rules.filter (fun r => r.isActive)).foldl (processRule regexTest ctx)
    { score := 0, blocked := false, requiresInvestigation := false, factors := [] }

/-- `Math.round(q * 100) / 100` (round half away from zero does not arise for
the values produced here; `⌊q + 1/2⌋` matches `Math.round` on them). -/
def jsRound2 (q : ℚ) : ℚ :=
  ((Int.floor (q * 100 + 1 / 2) : ℚ)) / 100

/-- `calculateOverallConfidence`: 1.0 on no factors, otherwise the rounded
average factor confidence. -/
def calculateOverallConfidence (riskFactors : List RiskFactor) : ℚ :=
  if riskFactors.length = 0 then 1
  else jsRound2 ((riskFactors.map (fun f => f.confidence)).sum / riskFactors.length)

/-- `BusinessRulesEngine.generateRecommendations`. -/
def generateRecommendationsBRE (riskLevel : RiskLevel)
    (shouldBlock requiresInvestigation : Bool) : List String :=
  (if shouldBlock then
    ["DENY claim immediately due to critical risk factors"]
  else if riskLevel = .CRITICAL then
    ["HOLD claim for immediate investigation", "Require enhanced identity verification"]
  else if riskLevel = .HIGH then
    ["HOLD claim for standard investigation", "Verify employment and wage records"]
  else if riskLevel = .MEDIUM then
    ["Process with additional verification", "Monitor for unusual patterns"]
  else
    ["APPROVE with standard processing"])
  ++ (if requiresInvestigation then
        ["Create investigation case", "Assign to fraud investigation unit"]
      else [])

/-- Derived metrics supplied by the mocked lookup collaborators
(`getSSNUsageCount`, `getClaimsLast30Days`, `checkDeathRegistry` draw random
values in the source; here they are environment inputs). -/
structure DerivedMetrics where
  ssnUsageCount : ℚ
  claimsLast30Days : ℚ
  deathRegistryMatch : Bool

/-- `calculateWageToIndustryRatio`: `weeklyBenefitAmount * 52 / 50000`. -/
def calculateWageToIndustryRatio (claim : BenefitsClaim) : ℚ :=
  claim.weeklyBenefitAmount * 52 / 50000

/-- The evaluation context `evaluateRules` builds: derived metrics shadow the
caller's context data (later spread keys win, so derived entries come first in
this first-match list).  The whole-record `claim`/`claimant`/`employer`
entries are omitted: no default rule's field path reaches into them. -/
def mkEvaluationContext (derived : DerivedMetrics) (claim : BenefitsClaim)
    (employer : Option EmployerRecord) (contextData : EvalContext) : EvalContext :=
  [("ssn_usage_count", .num derived.ssnUsageCount),
   ("wage_to_industry_ratio", .num (calculateWageToIndustryRatio claim)),
   ("employer_risk_level", .str ((employer.map (fun e => e.riskLevel)).getD "LOW")),
   ("claims_last_30_days", .num derived.claimsLast30Days),
   ("death_registry_match", .boolV derived.deathRegistryMatch)]
  ++ contextData

/-- `BusinessRulesEngine.evaluateRules`: evaluate all active rules and
assemble the assessment. -/
def evaluateRules (regexTest : String → String → Bool) (rules : List BusinessRule)
    (derived : DerivedMetrics) (claim : BenefitsClaim) (claimant : ClaimantProfile)
    (employer : Option EmployerRecord) (contextData : EvalContext) :
    RiskAssessmentResult :=
  let ctx := mkEvaluationContext derived claim employer contextData
  let st := ruleEvalOutcome regexTest rules ctx
  let riskLevel := determineRiskLevelBRE st.score st.blocked
  { claimId := claim.claimId
    claimantId := claimant.claimantId
    overallRiskScore := st.score
    riskLevel := riskLevel
    riskFactors := st.factors
    recommendedActions :=
      generateRecommendationsBRE riskLevel st.blocked st.requiresInvestigation
    requiresInvestigation := st.requiresInvestigation
    autoApprovalEligible := !st.blocked && decide (riskLevel = .LOW)
    confidenceScore := calculateOverallConfidence st.factors }

/-- Rule `ID_001` "Duplicate SSN Check". -/
def ruleID001 : BusinessRule :=
  { ruleId := "ID_001", ruleName := "Duplicate SSN Check", category := "IDENTITY"
    description := "Flag claims with SSN already associated with active claim"
    conditions := [⟨"C001", "ssn_usage_count", .GREATER_THAN, .num 1⟩]
    actions := [.SET_FLAG "DUPLICATE_SSN" "HIGH", .ADD_SCORE (some 75)]
    severity := "ERROR", isActive := true }

/-- Rule `WAGE_001` "Excessive Wage Claims". -/
def ruleWAGE001 : BusinessRule :=
  { ruleId := "WAGE_001", ruleName := "Excessive Wage Claims", category := "WAGE"
    description := "High risk score for claims with wages significantly above industry average"
    conditions := [⟨"C002", "wage_to_industry_ratio", .GREATER_THAN, .num (5 / 2)⟩]
    actions := [.ADD_SCORE (some 50), .SET_FLAG "EXCESSIVE_WAGES" "MEDIUM"]
    severity := "WARNING", isActive := true }

/-- Rule `EMP_001` "High-Risk Employer". -/
def ruleEMP001 : BusinessRule :=
  { ruleId := "EMP_001", ruleName := "High-Risk Employer", category := "EMPLOYER"
    description := "Block claims from employers flagged as high-risk"
    conditions := [⟨"C003", "employer_risk_level", .EQUALS, .str "CRITICAL"⟩]
    actions := [.BLOCK_CLAIM "HIGH_RISK_EMPLOYER", .CREATE_CASE "EMPLOYER_FRAUD" "HIGH"]
    severity := "CRITICAL", isActive := true }

/-- Rule `BEH_001` "Rapid Multiple Claims". -/
def ruleBEH001 : BusinessRule :=
  { ruleId := "BEH_001", ruleName := "Rapid Multiple Claims", category := "BEHAVIORAL"
    description := "Flag claimants filing multiple claims in short timeframe"
    conditions := [⟨"C004", "claims_last_30_days", .GREATER_THAN, .num 3⟩]
    actions := [.SET_FLAG "RAPID_FILING" "MEDIUM", .REQUIRE_VERIFICATION "IDENTITY_ENHANCED"]
    severity := "WARNING", isActive := true }

/-- Rule `XREF_001` "Deceased Person Check". -/
def ruleXREF001 : BusinessRule :=
  { ruleId := "XREF_001", ruleName := "Deceased Person Check", category := "CROSS_REFERENCE"
    description := "Block claims from individuals in death registry"
    conditions := [⟨"C005", "death_registry_match", .EQUALS, .boolV true⟩]
    actions := [.BLOCK_CLAIM "DECEASED_PERSON", .CREATE_CASE "IDENTITY_THEFT" "CRITICAL"]
    severity := "CRITICAL", isActive := true }

/-- The default rule catalog, in definition order. -/
def defaultRules : List BusinessRule :=
  [ruleID001, ruleWAGE001, ruleEMP001, ruleBEH001, ruleXREF001]

/-! ## RealTimeRiskScoring -/

/-- Session metrics compared by the behavioral analyzer (the fields it never
reads — click patterns, IP address, time-of-day pattern — are omitted). -/
structure BehavioralMetrics where
  sessionDuration : ℚ
  typingSpeed : ℚ
  deviceFingerprint : String
  locationConsistency : ℚ
deriving DecidableEq, Repr

/-- A geographic point for the geographic-anomaly pattern condition. -/
structure GeoPoint where
  lat : ℚ
  lng : ℚ
deriving DecidableEq, Repr

/-- A reference case for continuous learning (confirmed fraud or confirmed
false positive). -/
structure RefCase where
  weeklyBenefitAmount : ℚ
  riskScore : ℚ
deriving DecidableEq, Repr

/-- The optional `context` object passed to `scoreRiskRealTime`, with each
optionally-chained field modelled explicitly; an absent context is the record
with every field empty.  `nowMs` stands for `Date.now()` inside the pattern
closures. -/
structure RTContext where
  behavioralMetrics : Option BehavioralMetrics
  recentClaimDates : List Int
  deviceUnusualBehavior : Option ℚ
  identitySyntheticScore : Option ℚ
  currentLocation : Option GeoPoint
  historicalLocations : List GeoPoint
  sharedAddressCount : Option ℚ
  sharedPhoneCount : Option ℚ
  recentFraudConfirmations : List RefCase
  recentFalsePositives : List RefCase
  nowMs : Int

/-- `v > c` where `v` may be `undefined` (`undefined > c` is false). -/
def optGt (v : Option ℚ) (c : ℚ) : Bool :=
  match v with
  | some x => x > c
  | none => false

/-- A risk pattern of the real-time scorer's own table; condition closures are
embedded as Lean functions.  (`lastSeen` is write-only metadata and omitted.) -/
structure RiskPattern where
  id : String
  name : String
  weight : ℚ
  conditions : List (BenefitsClaim → ClaimantProfile → RTContext → Bool)
  emergingThreat : Bool
  frequency : ℚ

/-- The scorer's default pattern table.  The geographic-anomaly condition
averages `calculateDistance` values; that mileage computation uses a
floating-point square root, so it is supplied as a `distance` oracle. -/
def defaultRiskPatterns (distance : GeoPoint → GeoPoint → ℚ) : List RiskPattern :=
  [{ id := "RAPID_MULTIPLE_CLAIMS", name := "Rapid Multiple Claims Pattern", weight := 85
     conditions := [fun _ _ ctx =>
       (ctx.recentClaimDates.filter
         (fun t => t > ctx.nowMs - 24 * 60 * 60 * 1000)).length > 2]
     emergingThreat := false, frequency := 45 },
   { id := "SUSPICIOUS_DEVICE_PATTERN", name := "Suspicious Device Behavior", weight := 70
     conditions := [fun _ _ ctx => optGt ctx.deviceUnusualBehavior (7 / 10)]
     emergingThreat := true, frequency := 23 },
   { id := "SYNTHETIC_IDENTITY_MARKERS", name := "Synthetic Identity Indicators", weight := 95
     conditions := [fun _ _ ctx => (ctx.identitySyntheticScore.getD 0) > 8 / 10]
     emergingThreat := true, frequency := 12 },
   { id := "GEOGRAPHIC_ANOMALY", name := "Geographic Inconsistency", weight := 60
     conditions := [fun _ _ ctx =>
       match ctx.currentLocation with
       | none => false
       | some cur =>
         if ctx.historicalLocations.isEmpty then false
         else ((ctx.historicalLocations.map (distance cur)).sum
                 / ctx.historicalLocations.length) > 500]
     emergingThreat := false, frequency := 34 }]

/-- Division-guarded comparison `a / b > t` under JavaScript semantics: for
`b = 0`, `a / 0` is `±Infinity` (or `NaN` when `a = 0`), so the comparison
holds exactly when `a > 0` for the nonnegative thresholds used here. -/
def jsDivGt (a b t : ℚ) : Bool :=
  if b = 0 then a > 0 else a / b > t

/-- `analyzeBehavioralPatterns` for one claimant: given the current session
metrics and the stored history, return the behavioral sub-score and the new
stored history (`none` when the map entry is left untouched because no current
metrics were supplied).  The comparisons read the un-truncated pushed list,
while only its last 10 entries are stored, exactly as in the source. -/
def analyzeBehavioralPatterns (currentMetrics : Option BehavioralMetrics)
    (historical : List BehavioralMetrics) : ℚ × Option (List BehavioralMetrics) :=
  match currentMetrics with
  | none => (0, none)
  | some cm =>
    let hist := historical ++ [cm]
    let stored := hist.drop (hist.length - 10)
    if hist.length < 2 then (0, some stored)
    else
      let avgTypingSpeed := (hist.map (fun m => m.typingSpeed)).sum / hist.length
      let avgSessionDuration := (hist.map (fun m => m.sessionDuration)).sum / hist.length
      let score :=
        (if jsDivGt |cm.typingSpeed - avgTypingSpeed| avgTypingSpeed (1 / 2) then (25 : ℚ) else 0)
        + (if jsDivGt |cm.sessionDuration - avgSessionDuration| avgSessionDuration (7 / 10)
           then 20 else 0)
        + (if ((hist.map (fun m => m.deviceFingerprint)).dedup).length > 3 then 30 else 0)
        + (if cm.locationConsistency < 3 / 10 then 35 else 0)
      (score, some stored)

/-- `detectPatterns`: sum matching pattern weights; a matching emerging-threat
pattern with frequency above 20 adds 20 more and records its id in the
process-wide emerging-threat set (modelled as an insertion-ordered list). -/
def detectPatterns (patterns : List RiskPattern) (threats : List String)
    (claim : BenefitsClaim) (claimant : ClaimantProfile) (ctx : RTContext) :
    ℚ × List String :=
  patterns.foldl
    (fun acc pattern =>
      if pattern.conditions.all (fun condition => condition claim claimant ctx) then
        if pattern.frequency > 20 ∧ pattern.emergingThreat then
          (acc.1 + pattern.weight + 20,
           if pattern.id ∈ acc.2 then acc.2 else acc.2 ++ [pattern.id])
        else (acc.1 + pattern.weight, acc.2)
      else acc)
    (0, threats)

/-- `new Date(ms).getHours()` modelled in UTC (the source uses local time;
only the unusual-hours anomaly reads it). -/
def jsGetHours (ms : Int) : Int :=
  (ms / 3600000) % 24

/-- `detectAnomalies`: time, amount, baseline-risk and cross-reference
anomalies. -/
def detectAnomalies (claim : BenefitsClaim) (claimant : ClaimantProfile)
    (ctx : RTContext) : ℚ :=
  let claimHour := jsGetHours claim.createdDate
  (if claimHour < 6 ∨ claimHour > 22 then (15 : ℚ) else 0)
  + (if |claim.weeklyBenefitAmount - 450| / 450 > 3 / 2 then 25 else 0)
  + (if claimant.riskScore > 70 then 30 else 0)
  + (if optGt ctx.sharedAddressCount 5 then 20 else 0)
  + (if optGt ctx.sharedPhoneCount 3 then 15 else 0)

/-- `hasSimilarCharacteristics`: amount within 50 and risk score within 20. -/
def hasSimilarCharacteristics (claim : BenefitsClaim) (claimant : ClaimantProfile)
    (reference : RefCase) : Bool :=
  |claim.weeklyBenefitAmount - reference.weeklyBenefitAmount| < 50
  && |claimant.riskScore - reference.riskScore| < 20

/-- `applyContinuousLearning`: +10 per fraud-similar reference, −5 per
false-positive-similar reference; 0 when learning is disabled. -/
def applyContinuousLearning (continuousLearning : Bool) (claim : BenefitsClaim)
    (claimant : ClaimantProfile) (ctx : RTContext) : ℚ :=
  if !continuousLearning then 0
  else
    let afterFraud := ctx.recentFraudConfirmations.foldl
      (fun adjustment fraud =>
        if hasSimilarCharacteristics claim claimant fraud then adjustment + 10
        else adjustment) (0 : ℚ)
    ctx.recentFalsePositives.foldl
      (fun adjustment fp =>
        if hasSimilarCharacteristics claim claimant fp then adjustment - 5
        else adjustment) afterFraud

/-- `RealTimeRiskScoring.generateRiskFactors`: per-category factors gated by
fixed thresholds, with fixed per-category confidences. -/
def generateRiskFactorsRT (behavioralRisk patternRisk anomalyRisk learningAdjustment : ℚ)
    (threats : List String) : List RiskFactor :=
  (if behavioralRisk > 20 then
     [{ factorId := "BEHAVIORAL_ANOMALY", factorName := "Behavioral Pattern Anomaly"
        category := "BEHAVIORAL", impact := behavioralRisk, confidence := 85 / 100
        description := "Detected unusual user behavior patterns"
        evidence := ["Abnormal typing patterns", "Session duration anomalies",
                     "Device inconsistencies"] }]
   else [])
  ++ (if patternRisk > 30 then
        [{ factorId := "PATTERN_MATCH", factorName := "Known Fraud Pattern Detected"
           category := "PATTERN_RECOGNITION", impact := patternRisk, confidence := 9 / 10
           description := "Matches known fraudulent behavior patterns"
           evidence := threats.map (fun threat => "Pattern: " ++ threat) }]
      else [])
  ++ (if anomalyRisk > 25 then
        [{ factorId := "STATISTICAL_ANOMALY", factorName := "Statistical Anomaly Detected"
           category := "ANOMALY_DETECTION", impact := anomalyRisk, confidence := 75 / 100
           description := "Deviates significantly from normal patterns"
           evidence := ["Unusual claim timing", "Abnormal benefit amounts",
                        "Geographic inconsistencies"] }]
      else [])
  ++ (if |learningAdjustment| > 5 then
        [{ factorId := "CONTINUOUS_LEARNING", factorName := "Machine Learning Adjustment"
           category := "AI_LEARNING", impact := learningAdjustment, confidence := 7 / 10
           description := "Risk score adjusted based on continuous learning"
           evidence := if learningAdjustment > 0 then ["Similar to confirmed fraud cases"]
                       else ["Similar to confirmed legitimate cases"] }]
      else [])

/-- `RealTimeRiskScoring.generateRecommendations`. -/
def generateRecommendationsRT (score : ℚ) (riskFactors : List RiskFactor)
    (threats : List String) : List String :=
  (if score ≥ 200 then
     ["Immediate manual review required", "Escalate to senior fraud investigator"]
   else if score ≥ 100 then
     ["Schedule comprehensive investigation", "Request additional documentation"]
   else if score ≥ 50 then
     ["Perform enhanced verification checks", "Monitor for additional risk factors"]
   else [])
  ++ (if threats.length > 0 then ["Alert: Emerging threat patterns detected"] else [])
  ++ (if riskFactors.any (fun f => f.category = "BEHAVIORAL")
      then ["Consider behavioral biometric verification"] else [])

/-- `RealTimeRiskScoring.determineRiskLevel`: 200/100/50 thresholds, no
blocking input. -/
def determineRiskLevelRT (score : ℚ) : RiskLevel :=
  if score ≥ 200 then .CRITICAL
  else if score ≥ 100 then .HIGH
  else if score ≥ 50 then .MEDIUM
  else .LOW

/-- `calculateConfidence`: 0.5 with no factors, otherwise the rounded average
factor confidence. -/
def calculateConfidenceRT (riskFactors : List RiskFactor) : ℚ :=
  if riskFactors.length = 0 then 1 / 2
  else jsRound2 ((riskFactors.map (fun f => f.confidence)).sum / riskFactors.length)

/-- First-match association-list lookup (used for the scorer's behavioral-
profile map and the case store). -/
def lookupAssoc {α : Type} (k : String) : List (String × α) → Option α
  | [] => none
  | (k', v) :: rest => if k' = k then some v else lookupAssoc k rest

/-- `Map.set` semantics on an insertion-ordered association list: replace in
place when the key exists, append otherwise. -/
def setAssoc {α : Type} (k : String) (v : α) : List (String × α) → List (String × α)
  | [] => [(k, v)]
  | (k', v') :: rest =>
      if k' = k then (k, v) :: rest else (k', v') :: setAssoc k v rest

/-- Mutable state of one `RealTimeRiskScoring` instance. -/
structure RTState where
  riskPatterns : List RiskPattern
  behavioralProfiles : List (String × List BehavioralMetrics)
  emergingThreats : List String
  continuousLearning : Bool

/-- `scoreRiskRealTime`: the four additive sub-scores, the clamp to
`[0, 1000]`, and the assembled assessment; returns the updated scorer state.
The `processingTimeMs` wall-clock field is not modelled. -/
def scoreRiskRealTime (st : RTState) (claim : BenefitsClaim)
    (claimant : ClaimantProfile) (ctx : RTContext) :
    RiskAssessmentResult × RTState :=
  let historical := (lookupAssoc claimant.claimantId st.behavioralProfiles).getD []
  let behavioral := analyzeBehavioralPatterns ctx.behavioralMetrics historical
  let behavioralRisk := behavioral.1
  let profiles :=
    match behavioral.2 with
    | some stored => setAssoc claimant.claimantId stored st.behavioralProfiles
    | none => st.behavioralProfiles
  let patterns := detectPatterns st.riskPatterns st.emergingThreats claim claimant ctx
  let patternRisk := patterns.1
  let threats := patterns.2
  let anomalyRisk := detectAnomalies claim claimant ctx
  let learningAdjustment := applyContinuousLearning st.continuousLearning claim claimant ctx
  let baseScore := behavioralRisk + patternRisk + anomalyRisk + learningAdjustment
  let finalScore := min 1000 (max 0 baseScore)
  let riskFactors := generateRiskFactorsRT behavioralRisk patternRisk anomalyRisk
    learningAdjustment threats
  ({ claimId := claim.claimId
     claimantId := claimant.claimantId
     overallRiskScore := finalScore
     riskLevel := determineRiskLevelRT finalScore
     riskFactors := riskFactors
     recommendedActions := generateRecommendationsRT finalScore riskFactors threats
     requiresInvestigation := decide (finalScore ≥ 100)
     autoApprovalEligible := decide (finalScore < 50)
     confidenceScore := calculateConfidenceRT riskFactors },
   { st with behavioralProfiles := profiles, emergingThreats := threats })

/-! ## PatternDetectionEngine (the parts the claims exercise) -/

/-- Insert a claim into a list sorted by `createdDate` (ascending). -/
def insertByDate (c : BenefitsClaim) : List BenefitsClaim → List BenefitsClaim
  | [] => [c]
  | d :: rest =>
      if c.createdDate < d.createdDate then c :: d :: rest
      else d :: insertByDate c rest

/-- Sort claims by creation date ascending, as the comparator
`(a, b) => dateOf(a) - dateOf(b)` does. -/
def sortByCreatedDate : List BenefitsClaim → List BenefitsClaim
  | [] => []
  | c :: rest => insertByDate c (sortByCreatedDate rest)

/-- Inter-arrival differences of a (sorted) claim list: the source builds
`sorted.slice(0, -1).map((claim, i) => dateOf(sorted[i+1]) - dateOf(claim))`,
i.e. consecutive differences. -/
def interArrivalDiffs : List BenefitsClaim → List ℚ
  | a :: b :: rest =>
      (((b.createdDate - a.createdDate : Int) : ℚ)) :: interArrivalDiffs (b :: rest)
  | _ => []

/-- The `AUTOMATED_FILING_SCHEME` detection rule: sort by creation date, take
inter-arrival differences, and flag when the variance is below one tenth of
the mean interval and there are more than 10 differences. -/
def automatedFilingDetect (claims : List BenefitsClaim) : Bool :=
  let timeDiffs := interArrivalDiffs (sortByCreatedDate claims)
  let avgInterval : ℚ := timeDiffs.sum / (timeDiffs.length : ℚ)
  let variance : ℚ :=
    (timeDiffs.map (fun d => (d - avgInterval) ^ 2)).sum / (timeDiffs.length : ℚ)
  decide (variance < avgInterval * (1 / 10)) && decide (timeDiffs.length > 10)

/-- A known fraud scheme; detector closures are embedded as Lean functions
(rolling statistics fields that the detection path does not read are kept
only where a claim needs them). -/
structure FraudScheme where
  id : String
  name : String
  severity : String
  detectionRules : List (List BenefitsClaim → List ClaimantProfile → Bool)
  occurrenceCount : ℚ
  successRate : ℚ

/-- The `AUTOMATED_FILING_SCHEME` catalog entry. -/
def automatedFilingScheme : FraudScheme :=
  { id := "AUTOMATED_FILING_SCHEME", name := "Automated Claim Filing Bots"
    severity := "MEDIUM"
    detectionRules := [fun claims _ => automatedFilingDetect claims]
    occurrenceCount := 6, successRate := 42 / 100 }

/-- `detectScheme`'s detection verdict: every detection rule must return
true (`detectionResults.every(result => result === true)`). -/
def detectSchemeDetected (scheme : FraudScheme) (claims : List BenefitsClaim)
    (claimants : List ClaimantProfile) : Bool :=
  (scheme.detectionRules.map (fun rule => rule claims claimants)).all (fun r => r = true)

/-- Modelled from the spec: the claimed flagging condition for
`AUTOMATED_FILING_SCHEME` — variance of inter-arrival times (sorted by
creation date) below 10% of the mean interval, with AT LEAST 10 inter-arrival
samples.  Kept separate from `automatedFilingDetect` (the code) so the two
can be compared. -/
def specAutomatedFlag (claims : List BenefitsClaim) : Bool :=
  let diffs := interArrivalDiffs (sortByCreatedDate claims)
  let mean : ℚ := diffs.sum / (diffs.length : ℚ)
  let variance : ℚ := (diffs.map (fun d => (d - mean) ^ 2)).sum / (diffs.length : ℚ)
  decide (variance < mean / 10) && decide (diffs.length ≥ 10)

/-- The amended flagging condition: identical but requiring MORE than 10
inter-arrival samples, as the code does. -/
def specAutomatedFlagAmended (claims : List BenefitsClaim) : Bool :=
  let diffs := interArrivalDiffs (sortByCreatedDate claims)
  let mean : ℚ := diffs.sum / (diffs.length : ℚ)
  let variance : ℚ := (diffs.map (fun d => (d - mean) ^ 2)).sum / (diffs.length : ℚ)
  decide (variance < mean / 10) && decide (diffs.length > 10)

/-! ## CaseManagementService -/

/-- Fraud-case types assigned by `determineCaseType`. -/
inductive CaseType where
  | IDENTITY_THEFT | WAGE_FALSIFICATION | EMPLOYER_FRAUD
  | ORGANIZED_FRAUD | ELIGIBILITY_FRAUD
deriving DecidableEq, Repr

/-- Fraud-case lifecycle status. -/
inductive CaseStatus where
  | OPEN | UNDER_INVESTIGATION | PENDING_REVIEW | CLOSED | REFERRED
deriving DecidableEq, Repr

/-- Render a case status for the status-change investigation note. -/
def caseStatusStr : CaseStatus → String
  | .OPEN => "OPEN"
  | .UNDER_INVESTIGATION => "UNDER_INVESTIGATION"
  | .PENDING_REVIEW => "PENDING_REVIEW"
  | .CLOSED => "CLOSED"
  | .REFERRED => "REFERRED"

/-- One link of an evidence item's chain of custody. -/
structure CustodyRecord where
  recordId : String
  evidenceId : String
  custodian : String
  transferDate : String
  transferReason : String
  digitallySigned : Bool
deriving DecidableEq, Repr

/-- An evidence item with its ordered custody chain. -/
structure EvidenceItem where
  evidenceId : String
  caseId : String
  evidenceType : String
  description : String
  filePath : Option String
  sourceSystem : Option String
  collectedBy : String
  collectedDate : String
  chainOfCustody : List CustodyRecord
deriving DecidableEq, Repr

/-- An investigation note. -/
structure InvestigationNote where
  noteId : String
  caseId : String
  investigatorId : String
  noteType : String
  content : String
  isConfidential : Bool
  createdDate : String
deriving DecidableEq, Repr

/-- A tracked fraud case. -/
structure FraudCase where
  caseId : String
  caseNumber : String
  caseType : CaseType
  priority : RiskLevel
  status : CaseStatus
  claimantId : String
  relatedClaimIds : List String
  fraudScore : ℚ
  potentialLoss : ℚ
  actualLoss : ℚ
  recoveredAmount : ℚ
  assignedInvestigator : Option String
  createdDate : String
  lastUpdatedDate : String
  investigationNotes : List InvestigationNote
  evidenceItems : List EvidenceItem
  businessRulesTriggered : List String
  closureDate : Option String
  closureReason : Option String
deriving DecidableEq, Repr

/-- An audit-trail entry (value-snapshot fields are kept as rendered text). -/
structure AuditEntry where
  auditId : String
  entityType : String
  entityId : String
  action : String
  userId : String
  systemGenerated : Bool
deriving DecidableEq, Repr

/-- A system alert. -/
structure SystemAlert where
  alertId : String
  alertType : String
  severity : String
  title : String
  description : String
  entityType : String
  entityId : String
  triggeredBy : String
  triggeredDate : String
  status : String
deriving DecidableEq, Repr

/-- Payload for `createSystemAlert` (the caller-supplied part). -/
structure AlertData where
  alertType : String
  severity : String
  title : String
  description : String
  entityType : String
  entityId : String
  triggeredBy : String
deriving DecidableEq, Repr

/-- Identifiers and timestamps a single service call generates
(`Date.now()`-based ids, random case numbers, the investigator drawn from the
risk-level pool); supplied as an environment so the service is deterministic. -/
structure GenEnv where
  now : String
  caseId : String
  caseNumber : String
  noteId : String
  auditId : String
  alertId : String
  evidenceId : String
  custodyId : String
  investigator : Option String
deriving DecidableEq, Repr

/-- The in-memory state owned by one `CaseManagementService` instance. -/
structure CMSState where
  cases : List (String × FraudCase)
  investigations : List (String × List InvestigationNote)
  evidence : List (String × List EvidenceItem)
  auditTrail : List AuditEntry
  alerts : List SystemAlert
deriving DecidableEq, Repr

/-- The empty service state. -/
def CMSState.empty : CMSState :=
  { cases := [], investigations := [], evidence := [], auditTrail := [], alerts := [] }

/-- `determineCaseType`: the first matching substring check over risk-factor
names decides the case type. -/
def determineCaseType (riskAssessment : RiskAssessmentResult) : CaseType :=
  let riskFactors := riskAssessment.riskFactors
  if riskFactors.any (fun f =>
      strContains f.factorName "Deceased" || strContains f.factorName "Identity") then
    .IDENTITY_THEFT
  else if riskFactors.any (fun f =>
      strContains f.factorName "Wage" || strContains f.factorName "Employment") then
    .WAGE_FALSIFICATION
  else if riskFactors.any (fun f => strContains f.factorName "Employer") then
    .EMPLOYER_FRAUD
  else if riskFactors.any (fun f =>
      strContains f.factorName "Multiple" || strContains f.factorName "Pattern") then
    .ORGANIZED_FRAUD
  else
    .ELIGIBILITY_FRAUD

/-- `determinePriority`: priority mirrors risk level (default LOW). -/
def determinePriority : RiskLevel → RiskLevel
  | .CRITICAL => .CRITICAL
  | .HIGH => .HIGH
  | .MEDIUM => .MEDIUM
  | .LOW => .LOW

/-- `calculatePotentialLoss`: weekly amount times the standard 26-week
duration. -/
def calculatePotentialLoss (claim : BenefitsClaim) : ℚ :=
  claim.weeklyBenefitAmount * 26

/-- `createSystemAlert`: append an OPEN alert. -/
def createSystemAlert (gen : GenEnv) (alertData : AlertData) (s : CMSState) :
    String × CMSState :=
  (gen.alertId,
   { s with alerts := s.alerts ++
      [{ alertId := gen.alertId
         alertType := alertData.alertType, severity := alertData.severity
         title := alertData.title, description := alertData.description
         entityType := alertData.entityType, entityId := alertData.entityId
         triggeredBy := alertData.triggeredBy
         triggeredDate := gen.now, status := "OPEN" }] })

/-- `addInvestigationNote`: append the note to the per-case list and to the
case record itself (when the case exists), stamping its update date. -/
def addInvestigationNote (gen : GenEnv) (caseId investigatorId noteType content : String)
    (isConfidential : Bool) (s : CMSState) : String × CMSState :=
  let note : InvestigationNote :=
    { noteId := gen.noteId, caseId := caseId, investigatorId := investigatorId
      noteType := noteType, content := content, isConfidential := isConfidential
      createdDate := gen.now }
  let notes := (lookupAssoc caseId s.investigations).getD []
  let s1 := { s with investigations := setAssoc caseId (notes ++ [note]) s.investigations }
  match lookupAssoc caseId s1.cases with
  | some fraudCase =>
      let updated :=
        { fraudCase with
            investigationNotes := fraudCase.investigationNotes ++ [note]
            lastUpdatedDate := gen.now }
      (gen.noteId, { s1 with cases := setAssoc caseId updated s1.cases })
  | none => (gen.noteId, s1)

/-- The evidence item `addEvidence` constructs, with its seeded one-entry
custody chain. -/
def mkEvidenceItem (gen : GenEnv) (caseId evidenceType description collectedBy : String)
    (filePath sourceSystem : Option String) : EvidenceItem :=
  { evidenceId := gen.evidenceId, caseId := caseId
    evidenceType := evidenceType, description := description
    filePath := filePath, sourceSystem := sourceSystem
    collectedBy := collectedBy, collectedDate := gen.now
    chainOfCustody :=
      [{ recordId := gen.custodyId, evidenceId := gen.evidenceId
         custodian := collectedBy, transferDate := gen.now
         transferReason := "Initial collection", digitallySigned := true }] }

/-- `addEvidence`: append the item to the per-case evidence list and to the
case record, then add the correlated investigation note. -/
def addEvidence (gen : GenEnv) (caseId evidenceType description collectedBy : String)
    (filePath sourceSystem : Option String) (s : CMSState) : String × CMSState :=
  let item := mkEvidenceItem gen caseId evidenceType description collectedBy
    filePath sourceSystem
  let evidenceList := (lookupAssoc caseId s.evidence).getD []
  let s1 := { s with evidence := setAssoc caseId (evidenceList ++ [item]) s.evidence }
  let s2 :=
    match lookupAssoc caseId s1.cases with
    | some fraudCase =>
        let updated :=
          { fraudCase with
              evidenceItems := fraudCase.evidenceItems ++ [item]
              lastUpdatedDate := gen.now }
        { s1 with cases := setAssoc caseId updated s1.cases }
    | none => s1
  let noted := addInvestigationNote gen caseId collectedBy "EVIDENCE"
    ("Evidence collected: " ++ evidenceType ++ " - " ++ description) false s2
  (gen.evidenceId, noted.2)

/-- `createFraudCase`: build the case, store it with empty note/evidence
lists, add the system note, the audit entry, and (for HIGH/CRITICAL
priority) a system alert. -/
def createFraudCase (gen : GenEnv) (riskAssessment : RiskAssessmentResult)
    (claim : BenefitsClaim) (claimant : ClaimantProfile) (initiatedBy : String)
    (s : CMSState) : FraudCase × CMSState :=
  let fraudCase : FraudCase :=
    { caseId := gen.caseId, caseNumber := gen.caseNumber
      caseType := determineCaseType riskAssessment
      priority := determinePriority riskAssessment.riskLevel
      status := .OPEN
      claimantId := claimant.claimantId
      relatedClaimIds := [claim.claimId]
      fraudScore := riskAssessment.overallRiskScore
      potentialLoss := calculatePotentialLoss claim
      actualLoss := 0, recoveredAmount := 0
      assignedInvestigator := gen.investigator
      createdDate := gen.now, lastUpdatedDate := gen.now
      investigationNotes := [], evidenceItems := [], businessRulesTriggered := []
      closureDate := none, closureReason := none }
  let s1 : CMSState :=
    { s with
        cases := setAssoc gen.caseId fraudCase s.cases
        investigations := setAssoc gen.caseId [] s.investigations
        evidence := setAssoc gen.caseId [] s.evidence }
  let s2 := (addInvestigationNote gen gen.caseId "SYSTEM" "GENERAL"
    "Case created automatically based on risk assessment" false s1).2
  let s3 := { s2 with auditTrail := s2.auditTrail ++
    [{ auditId := gen.auditId, entityType := "CASE", entityId := gen.caseId
       action := "CREATE", userId := initiatedBy, systemGenerated := true }] }
  let s4 :=
    if fraudCase.priority = .HIGH ∨ fraudCase.priority = .CRITICAL then
      (createSystemAlert gen
        { alertType := "FRAUD_THRESHOLD"
          severity := if fraudCase.priority = .CRITICAL then "CRITICAL" else "HIGH"
          title := "High-Risk Fraud Case Created"
          description := "New fraud case " ++ gen.caseNumber ++ " created"
          entityType := "CASE", entityId := gen.caseId
          triggeredBy := initiatedBy } s3).2
    else s3
  (fraudCase, s4)

/-- `updateCaseStatus`: missing case returns false untouched; otherwise the
status (and closure stamp for CLOSED) is updated, a DECISION note and an
audit entry are appended. -/
def updateCaseStatus (gen : GenEnv) (caseId : String) (newStatus : CaseStatus)
    (updatedBy : String) (reason : Option String) (s : CMSState) : Bool × CMSState :=
  match lookupAssoc caseId s.cases with
  | none => (false, s)
  | some fraudCase =>
    let oldStatus := fraudCase.status
    let updated :=
      { fraudCase with
          status := newStatus
          lastUpdatedDate := gen.now
          closureDate := if newStatus = .CLOSED then some gen.now
                         else fraudCase.closureDate
          closureReason := if newStatus = .CLOSED then reason
                           else fraudCase.closureReason }
    let s1 := { s with cases := setAssoc caseId updated s.cases }
    let s2 := (addInvestigationNote gen caseId updatedBy "DECISION"
      ("Case status changed from " ++ caseStatusStr oldStatus ++ " to "
        ++ caseStatusStr newStatus) false s1).2
    let s3 := { s2 with auditTrail := s2.auditTrail ++
      [{ auditId := gen.auditId, entityType := "CASE", entityId := caseId
         action := "UPDATE", userId := updatedBy, systemGenerated := false }] }
    (true, s3)

/-- The state-mutating operations of `CaseManagementService`, as one step
alphabet (read queries and the pure `assignInvestigator` mock change no
state). -/
inductive CMSOp where
  | createCase (gen : GenEnv) (riskAssessment : RiskAssessmentResult)
      (claim : BenefitsClaim) (claimant : ClaimantProfile) (initiatedBy : String)
  | updateStatus (gen : GenEnv) (caseId : String) (newStatus : CaseStatus)
      (updatedBy : String) (reason : Option String)
  | addNote (gen : GenEnv) (caseId investigatorId noteType content : String)
      (isConfidential : Bool)
  | addEvidenceOp (gen : GenEnv) (caseId evidenceType description collectedBy : String)
      (filePath sourceSystem : Option String)
  | createAlertOp (gen : GenEnv) (alertData : AlertData)

/-- Apply one service operation to the state. -/
def applyOp (s : CMSState) : CMSOp → CMSState
  | .createCase gen ra claim claimant initiatedBy =>
      (createFraudCase gen ra claim claimant initiatedBy s).2
  | .updateStatus gen caseId newStatus updatedBy reason =>
      (updateCaseStatus gen caseId newStatus updatedBy reason s).2
  | .addNote gen caseId investigatorId noteType content isConfidential =>
      (addInvestigationNote gen caseId investigatorId noteType content isConfidential s).2
  | .addEvidenceOp gen caseId evidenceType description collectedBy filePath sourceSystem =>
      (addEvidence gen caseId evidenceType description collectedBy filePath sourceSystem s).2
  | .createAlertOp gen alertData => (createSystemAlert gen alertData s).2

/-- The evidence list stored for a case. -/
def evidenceOf (s : CMSState) (caseId : String) : List EvidenceItem :=
  (lookupAssoc caseId s.evidence).getD []

/-- Freshness of the generated case id for `createCase` (the source generates
`CASE_${Date.now()}_${random}` ids, never colliding with live entries); all
other operations need no freshness. -/
def opFresh : CMSOp → CMSState → Prop
  | .createCase gen _ _ _ _, s => lookupAssoc gen.caseId s.evidence = none
  | _, _ => True

/-! ## EnterpriseFraudAnalyzer (the orchestrator) -/

/-- One cross-system match returned by `performCrossMatch` (the fields the
orchestrator reads). -/
structure CrossMatch where
  sourceType : String
  matchType : String
deriving DecidableEq, Repr

/-- The orchestrator's environment: derived rule-engine metrics, the regex
oracle, the AI scoring oracle's FRAUD-label score (`none` when the oracle is
unavailable or returns no FRAUD item — `enhanceWithAI` catches its own
failures and degrades to zero), the external cross-match call (`Except`-valued
because its failure is NOT caught locally and propagates to the
orchestrator's catch-all), and the id/timestamp generator for case
creation. -/
structure OrchEnv where
  derived : DerivedMetrics
  regexTest : String → String → Bool
  aiFraudScore : Option ℚ
  crossMatchE : Except Unit (List CrossMatch)
  genEnv : GenEnv

/-- Step 2, `enhanceWithAI` folded into the orchestrator: when justification
text is truthy, add `Math.floor(score * 100)` for a FRAUD score above 0.5
(capped so the total never exceeds 1000) and push the AI factor. -/
def applyAIEnhancement (aiFraudScore : Option ℚ) (ra : RiskAssessmentResult) :
    RiskAssessmentResult :=
  let additionalScore : ℚ :=
    match aiFraudScore with
    | some score => if score > 1 / 2 then ((Int.floor (score * 100) : ℤ) : ℚ) else 0
    | none => 0
  let additionalFactors : List RiskFactor :=
    match aiFraudScore with
    | some score =>
        if score > 1 / 2 then
          [{ factorId := "AI_TEXT_ANALYSIS"
             factorName := "AI Text Analysis - Fraud Indicators"
             category := "AI_ANALYSIS"
             impact := ((Int.floor (score * 100) : ℤ) : ℚ)
             confidence := score
             description := "AI model detected potential fraud indicators in claim justification"
             evidence := ["AI fraud confidence reported"] }]
        else []
    | none => []
  { ra with
      overallRiskScore := min 1000 (ra.overallRiskScore + additionalScore)
      riskFactors := ra.riskFactors ++ additionalFactors }

/-- Step 3: the cross-match bonus — one `CROSS_MATCH` factor and `+25` per
match when any matches were found (no cap here). -/
def applyCrossMatchBonus (crossMatches : List CrossMatch)
    (ra : RiskAssessmentResult) : RiskAssessmentResult :=
  if crossMatches.length > 0 then
    { ra with
        riskFactors := ra.riskFactors ++
          [{ factorId := "CROSS_MATCH", factorName := "Cross-System Matches Found"
             category := "CROSS_REFERENCE"
             impact := (crossMatches.length : ℚ) * 25
             confidence := 9 / 10
             description := "Potential matches found across systems"
             evidence := crossMatches.map
               (fun m => m.sourceType ++ ": " ++ m.matchType ++ " match") }]
        overallRiskScore := ra.overallRiskScore + (crossMatches.length : ℚ) * 25 }
  else ra

/-- Step 4, `createFraudCaseIfNeeded`: a case is created only when the
(rule-engine) risk level is HIGH or CRITICAL. -/
def createFraudCaseIfNeeded (gen : GenEnv) (riskAssessment : RiskAssessmentResult)
    (claim : BenefitsClaim) (claimant : ClaimantProfile) (s : CMSState) : CMSState :=
  if riskAssessment.riskLevel = .HIGH ∨ riskAssessment.riskLevel = .CRITICAL then
    (createFraudCase gen riskAssessment claim claimant "FRAUD_DETECTION_SYSTEM" s).2
  else s

/-- The orchestrator's own `determineRiskLevel`: thresholds only, no blocking
input. -/
def determineRiskLevelOrch (score : ℚ) : RiskLevel :=
  if score ≥ 200 then .CRITICAL
  else if score ≥ 100 then .HIGH
  else if score ≥ 50 then .MEDIUM
  else .LOW

/-- The fixed fallback assessment the catch-all returns. -/
def fallbackAssessment (claim : BenefitsClaim) (claimant : ClaimantProfile) :
    RiskAssessmentResult :=
  { claimId := claim.claimId
    claimantId := claimant.claimantId
    overallRiskScore := 0
    riskLevel := .LOW
    riskFactors :=
      [{ factorId := "SYSTEM_ERROR", factorName := "Analysis System Error"
         category := "TECHNICAL", impact := 0, confidence := 0
         description := "Fraud analysis system encountered an error"
         evidence := ["System fallback triggered"] }]
    recommendedActions := ["Manual review required due to system error"]
    requiresInvestigation := true
    autoApprovalEligible := false
    confidenceScore := 0 }

/-- `analyzeClaimEnterprise`: rule engine → AI enhancement (when
justification text is present in the context data) → cross-match bonus →
conditional case creation → risk-level recompute from the final score.  Any
uncaught failure inside the `try` (here: the external cross-match call)
yields the fixed fallback assessment, with the case store as it was at the
point of failure. -/
def analyzeClaimEnterprise (env : OrchEnv) (claim : BenefitsClaim)
    (claimant : ClaimantProfile) (employer : Option EmployerRecord)
    (contextData : EvalContext) (s : CMSState) : RiskAssessmentResult × CMSState :=
  let ra := evaluateRules env.regexTest defaultRules env.derived claim claimant
    employer contextData
  let ra2 :=
    if jsTruthy (lookupJs "justification_text" contextData) then
      applyAIEnhancement env.aiFraudScore ra
    else ra
  match env.crossMatchE with
  | .error _ => (fallbackAssessment claim claimant, s)
  | .ok crossMatches =>
    let ra3 := applyCrossMatchBonus crossMatches ra2
    let s2 :=
      if ra3.requiresInvestigation then
        createFraudCaseIfNeeded env.genEnv ra3 claim claimant s
      else s
    ({ ra3 with riskLevel := determineRiskLevelOrch ra3.overallRiskScore }, s2)

/-! ## Concrete fixtures for witnesses and counterexamples -/

/-- A quiet mid-day claim with a small weekly amount (industry ratio 0.104). -/
def claim0 : BenefitsClaim := ⟨"CLM1", "CLT1", 100, 43200000, none, none⟩

/-- A zero-risk claimant. -/
def claimant0 : ClaimantProfile := ⟨"CLT1", "SSN1", 0, 0⟩

/-- A fixed id/timestamp generator. -/
def gen0 : GenEnv := ⟨"T0", "CASE1", "FC1", "N1", "A1", "AL1", "EV1", "CU1", none⟩

/-- A regex oracle that matches nothing (no default rule uses `REGEX`). -/
def noRegex : String → String → Bool := fun _ _ => false

/-- Derived metrics that trigger no rule. -/
def dInert : DerivedMetrics := ⟨1, 1, false⟩

/-- Derived metrics with `ssn_usage_count = 2` (only `ID_001` fires). -/
def dSSN : DerivedMetrics := ⟨2, 1, false⟩

/-- Derived metrics with `claims_last_30_days = 4` (only `BEH_001` fires). -/
def dBeh : DerivedMetrics := ⟨1, 4, false⟩

/-- An employer whose risk level is CRITICAL (fires `EMP_001`). -/
def employerCrit : EmployerRecord := ⟨"E1", "CRITICAL"⟩

/-- An idle real-time scorer state: no patterns, no profiles, learning off. -/
def rtStateEmpty : RTState := ⟨[], [], [], false⟩

/-- A fully absent scoring context. -/
def rtCtxEmpty : RTContext := ⟨none, [], none, none, none, [], none, none, [], [], 0⟩

/-- Environment with two successful cross-system matches and no other signal. -/
def envTwoMatches : OrchEnv :=
  ⟨dInert, noRegex, none, .ok [⟨"SSN", "EXACT"⟩, ⟨"NAME", "FUZZY"⟩], gen0⟩

/-- Environment where only the rapid-filing rule fires. -/
def envBeh : OrchEnv := ⟨dBeh, noRegex, none, .ok [], gen0⟩

/-- Environment where only the high-risk-employer blocking rule can fire. -/
def envEmp : OrchEnv := ⟨dInert, noRegex, none, .ok [], gen0⟩

/-- Environment whose external cross-match call fails. -/
def envErr : OrchEnv := ⟨dInert, noRegex, none, .error (), gen0⟩

/-- A claim filed at time `t` (epoch milliseconds), for batch fixtures. -/
def claimAt (name : String) (t : Int) : BenefitsClaim := ⟨name, "", 0, t, none, none⟩

/-- Eleven claims filed at perfectly regular 100-second intervals: exactly 10
inter-arrival samples, zero variance. -/
def claims11 : List BenefitsClaim :=
  [claimAt "B0" 0, claimAt "B1" 100000, claimAt "B2" 200000, claimAt "B3" 300000,
   claimAt "B4" 400000, claimAt "B5" 500000, claimAt "B6" 600000, claimAt "B7" 700000,
   claimAt "B8" 800000, claimAt "B9" 900000, claimAt "B10" 1000000]

/-- Twelve claims filed at perfectly regular 100-second intervals: 11
inter-arrival samples, zero variance. -/
def claims12 : List BenefitsClaim :=
  claims11 ++ [claimAt "B11" 1100000]

/-- Modelled from the spec: the ordered case-type checks over risk-factor
names (identity/deceased, wage/employment, employer, multiple/pattern), in
that fixed order, to be compared with the code's `determineCaseType`
cascade. -/
def caseTypeChecks : List ((String → Bool) × CaseType) :=
  [(fun n => strContains n "Deceased" || strContains n "Identity", .IDENTITY_THEFT),
   (fun n => strContains n "Wage" || strContains n "Employment", .WAGE_FALSIFICATION),
   (fun n => strContains n "Employer", .EMPLOYER_FRAUD),
   (fun n => strContains n "Multiple" || strContains n "Pattern", .ORGANIZED_FRAUD)]

/-- Modelled from the spec: the first check in `caseTypeChecks` matched by
any risk factor decides the case type; `ELIGIBILITY_FRAUD` when none
matches. -/
def firstMatchingCaseType (factors : List RiskFactor) : CaseType :=
  match caseTypeChecks.find? (fun pc => factors.any (fun f => pc.1 f.factorName)) with
  | some pc => pc.2
  | none => .ELIGIBILITY_FRAUD

/-! ## Association-list lemmas -/

theorem lookupAssoc_setAssoc_self {α : Type} (k : String) (v : α) (l : List (String × α)) :
    lookupAssoc k (setAssoc k v l) = some v := by
  induction l with
  | nil => simp [setAssoc, lookupAssoc]
  | cons p rest ih =>
    cases p with
    | mk k₀ v₀ =>
      by_cases h : k₀ = k
      · simp [setAssoc, lookupAssoc, h]
      · simp [setAssoc, lookupAssoc, h, ih]

theorem lookupAssoc_setAssoc_ne {α : Type} {k k' : String} (v : α) (l : List (String × α))
    (h : k' ≠ k) : lookupAssoc k' (setAssoc k v l) = lookupAssoc k' l := by
  induction l with
  | nil => simp [setAssoc, lookupAssoc, Ne.symm h]
  | cons p rest ih =>
    cases p with
    | mk k₀ v₀ =>
      by_cases h₀ : k₀ = k
      · simp [setAssoc, lookupAssoc, h₀, Ne.symm h]
      · simp only [setAssoc, lookupAssoc, h₀, if_false]
        by_cases h₁ : k₀ = k'
        · simp [lookupAssoc, h₁]
        · simp [lookupAssoc, h₁, ih]

theorem setAssoc_fresh {α : Type} {k : String} (v : α) {l : List (String × α)}
    (h : lookupAssoc k l = none) : setAssoc k v l = l ++ [(k, v)] := by
  induction l with
  | nil => simp [setAssoc]
  | cons p rest ih =>
    cases p with
    | mk k₀ v₀ =>
      simp only [lookupAssoc] at h
      by_cases h₀ : k₀ = k
      · simp [h₀] at h
      · simp only [setAssoc, h₀, if_false, List.cons_append, List.cons.injEq, true_and]
        exact ih (by simpa [h₀] using h)

theorem setAssoc_append_last {α : Type} {k : String} (v v' : α) {l : List (String × α)}
    (h : lookupAssoc k l = none) :
    setAssoc k v' (l ++ [(k, v)]) = l ++ [(k, v')] := by
  induction l with
  | nil => simp [setAssoc]
  | cons p rest ih =>
    cases p with
    | mk k₀ v₀ =>
      simp only [lookupAssoc] at h
      by_cases h₀ : k₀ = k
      · simp [h₀] at h
      · simp only [List.cons_append, setAssoc, h₀, if_false, List.cons.injEq, true_and]
        exact ih (by simpa [h₀] using h)

/-! ## Field-preservation lemmas for the service operations -/

theorem addInvestigationNote_evidence (gen : GenEnv)
    (caseId investigatorId noteType content : String) (isConfidential : Bool)
    (s : CMSState) :
    ((addInvestigationNote gen caseId investigatorId noteType content
        isConfidential s).2).evidence = s.evidence := by
  unfold addInvestigationNote
  dsimp only
  split <;> rfl

theorem updateCaseStatus_evidence (gen : GenEnv) (caseId : String)
    (newStatus : CaseStatus) (updatedBy : String) (reason : Option String)
    (s : CMSState) :
    ((updateCaseStatus gen caseId newStatus updatedBy reason s).2).evidence
      = s.evidence := by
  unfold updateCaseStatus
  cases lookupAssoc caseId s.cases with
  | none => rfl
  | some fraudCase => simp only; rw [addInvestigationNote_evidence]

theorem createSystemAlert_evidence (gen : GenEnv) (alertData : AlertData)
    (s : CMSState) :
    ((createSystemAlert gen alertData s).2).evidence = s.evidence := rfl

theorem lookupAssoc_append_self {α : Type} {k : String} (v : α) {l : List (String × α)}
    (h : lookupAssoc k l = none) : lookupAssoc k (l ++ [(k, v)]) = some v := by
  induction l with
  | nil => simp [lookupAssoc]
  | cons p rest ih =>
    cases p with
    | mk k₀ v₀ =>
      simp only [lookupAssoc] at h
      by_cases h₀ : k₀ = k
      · simp [h₀] at h
      · simp only [List.cons_append, lookupAssoc, h₀, if_false]
        exact ih (by simpa [h₀] using h)

/-! ## Orchestrator step lemmas: the AI and cross-match steps only touch the
score and the factor list -/

theorem applyAIEnhancement_requiresInvestigation (a : Option ℚ)
    (ra : RiskAssessmentResult) :
    (applyAIEnhancement a ra).requiresInvestigation = ra.requiresInvestigation := rfl

theorem applyAIEnhancement_autoApproval (a : Option ℚ) (ra : RiskAssessmentResult) :
    (applyAIEnhancement a ra).autoApprovalEligible = ra.autoApprovalEligible := rfl

theorem applyAIEnhancement_riskLevel (a : Option ℚ) (ra : RiskAssessmentResult) :
    (applyAIEnhancement a ra).riskLevel = ra.riskLevel := rfl

theorem applyCrossMatchBonus_requiresInvestigation (ms : List CrossMatch)
    (ra : RiskAssessmentResult) :
    (applyCrossMatchBonus ms ra).requiresInvestigation = ra.requiresInvestigation := by
  unfold applyCrossMatchBonus; split <;> rfl

theorem applyCrossMatchBonus_autoApproval (ms : List CrossMatch)
    (ra : RiskAssessmentResult) :
    (applyCrossMatchBonus ms ra).autoApprovalEligible = ra.autoApprovalEligible := by
  unfold applyCrossMatchBonus; split <;> rfl

theorem applyCrossMatchBonus_riskLevel (ms : List CrossMatch)
    (ra : RiskAssessmentResult) :
    (applyCrossMatchBonus ms ra).riskLevel = ra.riskLevel := by
  unfold applyCrossMatchBonus; split <;> rfl

theorem aiCrossStep_requiresInvestigation (ms : List CrossMatch) (a : Option ℚ)
    (c : Prop) [Decidable c] (ra : RiskAssessmentResult) :
    (applyCrossMatchBonus ms
        (if c then applyAIEnhancement a ra else ra)).requiresInvestigation
      = ra.requiresInvestigation := by
  rw [applyCrossMatchBonus_requiresInvestigation]
  split <;> simp [applyAIEnhancement_requiresInvestigation]

theorem aiCrossStep_autoApproval (ms : List CrossMatch) (a : Option ℚ)
    (c : Prop) [Decidable c] (ra : RiskAssessmentResult) :
    (applyCrossMatchBonus ms
        (if c then applyAIEnhancement a ra else ra)).autoApprovalEligible
      = ra.autoApprovalEligible := by
  rw [applyCrossMatchBonus_autoApproval]
  split <;> simp [applyAIEnhancement_autoApproval]

theorem aiCrossStep_riskLevel (ms : List CrossMatch) (a : Option ℚ)
    (c : Prop) [Decidable c] (ra : RiskAssessmentResult) :
    (applyCrossMatchBonus ms (if c then applyAIEnhancement a ra else ra)).riskLevel
      = ra.riskLevel := by
  rw [applyCrossMatchBonus_riskLevel]
  split <;> simp [applyAIEnhancement_riskLevel]

theorem analyze_fst_autoApproval (env : OrchEnv) (claim : BenefitsClaim)
    (claimant : ClaimantProfile) (employer : Option EmployerRecord)
    (contextData : EvalContext) (s : CMSState) (ms : List CrossMatch)
    (hok : env.crossMatchE = .ok ms) :
    ((analyzeClaimEnterprise env claim claimant employer contextData s).1).autoApprovalEligible
      = (evaluateRules env.regexTest defaultRules env.derived claim claimant employer
          contextData).autoApprovalEligible := by
  simp only [analyzeClaimEnterprise, hok]
  exact aiCrossStep_autoApproval ms env.aiFraudScore _ _

theorem analyze_fst_riskLevel (env : OrchEnv) (claim : BenefitsClaim)
    (claimant : ClaimantProfile) (employer : Option EmployerRecord)
    (contextData : EvalContext) (s : CMSState) (ms : List CrossMatch)
    (hok : env.crossMatchE = .ok ms) :
    ((analyzeClaimEnterprise env claim claimant employer contextData s).1).riskLevel
      = determineRiskLevelOrch
          ((analyzeClaimEnterprise env claim claimant employer contextData s).1).overallRiskScore := by
  simp only [analyzeClaimEnterprise, hok]

theorem createFraudCase_evidence (gen : GenEnv) (ra : RiskAssessmentResult)
    (claim : BenefitsClaim) (claimant : ClaimantProfile) (initiatedBy : String)
    (s : CMSState) :
    ((createFraudCase gen ra claim claimant initiatedBy s).2).evidence
      = setAssoc gen.caseId [] s.evidence := by
  unfold createFraudCase
  dsimp only
  split
  · rw [createSystemAlert_evidence]
    dsimp only
    rw [addInvestigationNote_evidence]
  · dsimp only
    rw [addInvestigationNote_evidence]

theorem addEvidence_evidence (gen : GenEnv)
    (caseId evidenceType description collectedBy : String)
    (filePath sourceSystem : Option String) (s : CMSState) :
    ((addEvidence gen caseId evidenceType description collectedBy filePath
        sourceSystem s).2).evidence
      = setAssoc caseId
          (((lookupAssoc caseId s.evidence).getD []) ++
            [mkEvidenceItem gen caseId evidenceType description collectedBy
              filePath sourceSystem]) s.evidence := by
  unfold addEvidence
  dsimp only
  rw [addInvestigationNote_evidence]
  split <;> rfl

theorem analyze_fst_requiresInvestigation (env : OrchEnv) (claim : BenefitsClaim)
    (claimant : ClaimantProfile) (employer : Option EmployerRecord)
    (contextData : EvalContext) (s : CMSState) (ms : List CrossMatch)
    (hok : env.crossMatchE = .ok ms) :
    ((analyzeClaimEnterprise env claim claimant employer contextData s).1).requiresInvestigation
      = (evaluateRules env.regexTest defaultRules env.derived claim claimant employer
          contextData).requiresInvestigation := by
  simp only [analyzeClaimEnterprise, hok]
  exact aiCrossStep_requiresInvestigation ms env.aiFraudScore _ _

/-! ## Closed-form evaluations of the default rules' conditions -/

theorem evalConds_ID001 (regexTest : String → String → Bool) (d : DerivedMetrics)
    (c : BenefitsClaim) (emp : Option EmployerRecord) (cd : EvalContext) :
    evaluateRuleConditions regexTest ruleID001.conditions
        (mkEvaluationContext d c emp cd)
      = decide (d.ssnUsageCount > 1) := by
  have hs : splitDot "ssn_usage_count" = ["ssn_usage_count"] := by decide
  simp only [ruleID001, evaluateRuleConditions, List.all_cons, List.all_nil,
    Bool.and_true, evaluateCondition, getFieldValue, hs, mkEvaluationContext,
    List.cons_append, lookupJs, walkPath, jsToNumber, numGt]

theorem evalConds_WAGE001 (regexTest : String → String → Bool) (d : DerivedMetrics)
    (c : BenefitsClaim) (emp : Option EmployerRecord) (cd : EvalContext) :
    evaluateRuleConditions regexTest ruleWAGE001.conditions
        (mkEvaluationContext d c emp cd)
      = decide (calculateWageToIndustryRatio c > 5 / 2) := by
  have hs : splitDot "wage_to_industry_ratio" = ["wage_to_industry_ratio"] := by
    decide
  simp only [ruleWAGE001, evaluateRuleConditions, List.all_cons, List.all_nil,
    Bool.and_true, evaluateCondition, getFieldValue, hs, mkEvaluationContext,
    List.cons_append, lookupJs, walkPath, jsToNumber, numGt]

theorem evalConds_EMP001 (regexTest : String → String → Bool) (d : DerivedMetrics)
    (c : BenefitsClaim) (emp : Option EmployerRecord) (cd : EvalContext) :
    evaluateRuleConditions regexTest ruleEMP001.conditions
        (mkEvaluationContext d c emp cd)
      = decide (((emp.map (fun e => e.riskLevel)).getD "LOW") = "CRITICAL") := by
  have hs : splitDot "employer_risk_level" = ["employer_risk_level"] := by decide
  simp only [ruleEMP001, evaluateRuleConditions, List.all_cons, List.all_nil,
    Bool.and_true, evaluateCondition, getFieldValue, hs, mkEvaluationContext,
    List.cons_append, lookupJs, walkPath, jsStrictEq]

theorem evalConds_BEH001 (regexTest : String → String → Bool) (d : DerivedMetrics)
    (c : BenefitsClaim) (emp : Option EmployerRecord) (cd : EvalContext) :
    evaluateRuleConditions regexTest ruleBEH001.conditions
        (mkEvaluationContext d c emp cd)
      = decide (d.claimsLast30Days > 3) := by
  have hs : splitDot "claims_last_30_days" = ["claims_last_30_days"] := by decide
  simp only [ruleBEH001, evaluateRuleConditions, List.all_cons, List.all_nil,
    Bool.and_true, evaluateCondition, getFieldValue, hs, mkEvaluationContext,
    List.cons_append, lookupJs, walkPath, jsToNumber, numGt]

theorem evalConds_XREF001 (regexTest : String → String → Bool) (d : DerivedMetrics)
    (c : BenefitsClaim) (emp : Option EmployerRecord) (cd : EvalContext) :
    evaluateRuleConditions regexTest ruleXREF001.conditions
        (mkEvaluationContext d c emp cd)
      = d.deathRegistryMatch := by
  have hs : splitDot "death_registry_match" = ["death_registry_match"] := by decide
  simp only [ruleXREF001, evaluateRuleConditions, List.all_cons, List.all_nil,
    Bool.and_true, evaluateCondition, getFieldValue, hs, mkEvaluationContext,
    List.cons_append, lookupJs, walkPath, jsStrictEq]
  simp

theorem numGt_none_left (y : Option ℚ) : numGt none y = false := rfl

theorem numGt_none_right (x : Option ℚ) : numGt x none = false := by
  cases x <;> rfl

theorem numLt_none_left (y : Option ℚ) : numLt none y = false := rfl

theorem numLt_none_right (x : Option ℚ) : numLt x none = false := by
  cases x <;> rfl

/-! ## Outcome of the default rules on the concrete fixtures -/

theorem ruleEvalOutcome_inert :
    ruleEvalOutcome noRegex defaultRules (mkEvaluationContext dInert claim0 none [])
      = { score := 0, blocked := false, requiresInvestigation := false,
          factors := [] } := by
  have e1 : evaluateRuleConditions noRegex ruleID001.conditions
      (mkEvaluationContext dInert claim0 none []) = false := by
    rw [evalConds_ID001]; norm_num [dInert]
  have e2 : evaluateRuleConditions noRegex ruleWAGE001.conditions
      (mkEvaluationContext dInert claim0 none []) = false := by
    rw [evalConds_WAGE001]; norm_num [claim0, calculateWageToIndustryRatio]
  have e3 : evaluateRuleConditions noRegex ruleEMP001.conditions
      (mkEvaluationContext dInert claim0 none []) = false := by
    rw [evalConds_EMP001]; decide
  have e4 : evaluateRuleConditions noRegex ruleBEH001.conditions
      (mkEvaluationContext dInert claim0 none []) = false := by
    rw [evalConds_BEH001]; norm_num [dInert]
  have e5 : evaluateRuleConditions noRegex ruleXREF001.conditions
      (mkEvaluationContext dInert claim0 none []) = false := by
    rw [evalConds_XREF001]; rfl
  unfold ruleEvalOutcome
  rw [show List.filter (fun r => r.isActive) defaultRules = defaultRules from rfl]
  simp only [defaultRules, List.foldl]
  simp only [processRule, e1, e2, e3, e4, e5]
  simp

theorem ruleEvalOutcome_beh :
    ruleEvalOutcome noRegex defaultRules (mkEvaluationContext dBeh claim0 none [])
      = { score := 0, blocked := false, requiresInvestigation := true,
          factors := [mkRuleFactor ruleBEH001] } := by
  have e1 : evaluateRuleConditions noRegex ruleID001.conditions
      (mkEvaluationContext dBeh claim0 none []) = false := by
    rw [evalConds_ID001]; norm_num [dBeh]
  have e2 : evaluateRuleConditions noRegex ruleWAGE001.conditions
      (mkEvaluationContext dBeh claim0 none []) = false := by
    rw [evalConds_WAGE001]; norm_num [claim0, calculateWageToIndustryRatio]
  have e3 : evaluateRuleConditions noRegex ruleEMP001.conditions
      (mkEvaluationContext dBeh claim0 none []) = false := by
    rw [evalConds_EMP001]; decide
  have e4 : evaluateRuleConditions noRegex ruleBEH001.conditions
      (mkEvaluationContext dBeh claim0 none []) = true := by
    rw [evalConds_BEH001]; norm_num [dBeh]
  have e5 : evaluateRuleConditions noRegex ruleXREF001.conditions
      (mkEvaluationContext dBeh claim0 none []) = false := by
    rw [evalConds_XREF001]; rfl
  unfold ruleEvalOutcome
  rw [show List.filter (fun r => r.isActive) defaultRules = defaultRules from rfl]
  simp only [defaultRules, List.foldl]
  simp only [processRule, e1, e2, e3, e4, e5]
  simp [ruleBEH001, applyRuleAction]

theorem ruleEvalOutcome_empCrit :
    ruleEvalOutcome noRegex defaultRules
        (mkEvaluationContext dInert claim0 (some employerCrit) [])
      = { score := 0, blocked := true, requiresInvestigation := true,
          factors := [mkRuleFactor ruleEMP001] } := by
  have e1 : evaluateRuleConditions noRegex ruleID001.conditions
      (mkEvaluationContext dInert claim0 (some employerCrit) []) = false := by
    rw [evalConds_ID001]; norm_num [dInert]
  have e2 : evaluateRuleConditions noRegex ruleWAGE001.conditions
      (mkEvaluationContext dInert claim0 (some employerCrit) []) = false := by
    rw [evalConds_WAGE001]; norm_num [claim0, calculateWageToIndustryRatio]
  have e3 : evaluateRuleConditions noRegex ruleEMP001.conditions
      (mkEvaluationContext dInert claim0 (some employerCrit) []) = true := by
    rw [evalConds_EMP001]; decide
  have e4 : evaluateRuleConditions noRegex ruleBEH001.conditions
      (mkEvaluationContext dInert claim0 (some employerCrit) []) = false := by
    rw [evalConds_BEH001]; norm_num [dInert]
  have e5 : evaluateRuleConditions noRegex ruleXREF001.conditions
      (mkEvaluationContext dInert claim0 (some employerCrit) []) = false := by
    rw [evalConds_XREF001]; rfl
  unfold ruleEvalOutcome
  rw [show List.filter (fun r => r.isActive) defaultRules = defaultRules from rfl]
  simp only [defaultRules, List.foldl]
  simp only [processRule, e1, e2, e3, e4, e5]
  simp [ruleEMP001, applyRuleAction]

/-! ## Shared consequences of the assessment assembly -/

theorem evaluateRules_auto_imp (regexTest : String → String → Bool)
    (rules : List BusinessRule) (d : DerivedMetrics) (c : BenefitsClaim)
    (ct : ClaimantProfile) (emp : Option EmployerRecord) (cd : EvalContext)
    (h : (evaluateRules regexTest rules d c ct emp cd).autoApprovalEligible = true) :
    (evaluateRules regexTest rules d c ct emp cd).riskLevel = .LOW
    ∧ (ruleEvalOutcome regexTest rules (mkEvaluationContext d c emp cd)).blocked
        = false := by
  unfold evaluateRules at h ⊢
  dsimp only at h ⊢
  rw [Bool.and_eq_true] at h
  refine ⟨of_decide_eq_true h.2, ?_⟩
  have hb := h.1
  rwa [Bool.not_eq_true'] at hb

theorem determineRiskLevelRT_lt_50 (q : ℚ) (h : q < 50) :
    determineRiskLevelRT q = .LOW := by
  unfold determineRiskLevelRT
  rw [if_neg (by linarith), if_neg (by linarith), if_neg (by linarith)]

/-- C2 (amended): a rule-engine assessment with `autoApprovalEligible = true`
has `riskLevel = LOW` and no `BLOCK_CLAIM` action fired; a real-time-scorer
assessment with `autoApprovalEligible = true` has `riskLevel = LOW` (the
scorer has no blocking actions at all); and the orchestrator's final
assessment with `autoApprovalEligible = true` still implies no `BLOCK_CLAIM`
fired — but its recomputed risk level may exceed LOW, because
`autoApprovalEligible` is frozen at the rule-engine stage while the score
keeps growing (see the counterexample). -/
theorem auto_approval_invariants :
    (∀ (regexTest : String → String → Bool) (rules : List BusinessRule)
       (d : DerivedMetrics) (c : BenefitsClaim) (ct : ClaimantProfile)
       (emp : Option EmployerRecord) (cd : EvalContext),
       (evaluateRules regexTest rules d c ct emp cd).autoApprovalEligible = true →
       (evaluateRules regexTest rules d c ct emp cd).riskLevel = .LOW
       ∧ (ruleEvalOutcome regexTest rules (mkEvaluationContext d c emp cd)).blocked
           = false)
    ∧ (∀ (st : RTState) (c : BenefitsClaim) (ct : ClaimantProfile) (ctx : RTContext),
       ((scoreRiskRealTime st c ct ctx).1).autoApprovalEligible = true →
       ((scoreRiskRealTime st c ct ctx).1).riskLevel = .LOW)
    ∧ (∀ (env : OrchEnv) (c : BenefitsClaim) (ct : ClaimantProfile)
       (emp : Option EmployerRecord) (cd : EvalContext) (s : CMSState)
       (ms : List CrossMatch),
       env.crossMatchE = .ok ms →
       ((analyzeClaimEnterprise env c ct emp cd s).1).autoApprovalEligible = true →
       (ruleEvalOutcome env.regexTest defaultRules
         (mkEvaluationContext env.derived c emp cd)).blocked = false) := by
  refine ⟨fun rt rules d c ct emp cd h =>
    evaluateRules_auto_imp rt rules d c ct emp cd h, ?_, ?_⟩
  · intro st c ct ctx h
    unfold scoreRiskRealTime at h ⊢
    dsimp only at h ⊢
    exact determineRiskLevelRT_lt_50 _ (of_decide_eq_true h)
  · intro env c ct emp cd s ms hok h
    rw [analyze_fst_autoApproval env c ct emp cd s ms hok] at h
    exact (evaluateRules_auto_imp env.regexTest defaultRules env.derived c ct emp
      cd h).2

theorem auto_approval_invariants_witness :
    (evaluateRules noRegex defaultRules dInert claim0 claimant0 none
      []).autoApprovalEligible = true
    ∧ (evaluateRules noRegex defaultRules dInert claim0 claimant0 none
        []).riskLevel = .LOW := by
  have h : (evaluateRules noRegex defaultRules dInert claim0 claimant0 none
      []).autoApprovalEligible = true := by
    unfold evaluateRules
    dsimp only
    rw [ruleEvalOutcome_inert]
    norm_num [determineRiskLevelBRE]
  exact ⟨h, (auto_approval_invariants.1 noRegex defaultRules dInert claim0
    claimant0 none [] h).1⟩

/-- C2 counterexample: with no rule firing (auto-approval granted by the
rule engine) and two cross-system matches, the final assessment keeps
`autoApprovalEligible = true` while its recomputed risk level is MEDIUM, so
`autoApprovalEligible ⇒ riskLevel = LOW` fails for the orchestrator's final
assessment. -/
theorem auto_approval_final_level_cex :
    ((analyzeClaimEnterprise envTwoMatches claim0 claimant0 none []
        CMSState.empty).1).autoApprovalEligible = true
    ∧ ((analyzeClaimEnterprise envTwoMatches claim0 claimant0 none []
        CMSState.empty).1).riskLevel = .MEDIUM := by
  have hauto : (evaluateRules noRegex defaultRules dInert claim0 claimant0 none
      []).autoApprovalEligible = true := by
    unfold evaluateRules
    dsimp only
    rw [ruleEvalOutcome_inert]
    norm_num [determineRiskLevelBRE]
  have hscore : (evaluateRules noRegex defaultRules dInert claim0 claimant0 none
      []).overallRiskScore = 0 := by
    unfold evaluateRules
    dsimp only
    rw [ruleEvalOutcome_inert]
  constructor
  · rw [analyze_fst_autoApproval envTwoMatches claim0 claimant0 none []
      CMSState.empty [⟨"SSN", "EXACT"⟩, ⟨"NAME", "FUZZY"⟩] rfl]
    exact hauto
  · rw [analyze_fst_riskLevel envTwoMatches claim0 claimant0 none []
      CMSState.empty [⟨"SSN", "EXACT"⟩, ⟨"NAME", "FUZZY"⟩] rfl]
    have hsc : ((analyzeClaimEnterprise envTwoMatches claim0 claimant0 none []
        CMSState.empty).1).overallRiskScore = 50 := by
      simp only [analyzeClaimEnterprise, envTwoMatches]
      simp only [lookupJs, jsTruthy, Bool.false_eq_true, if_false]
      unfold applyCrossMatchBonus
      rw [if_pos (by norm_num)]
      dsimp only
      rw [hscore]
      norm_num
    rw [hsc]
    norm_num [determineRiskLevelOrch]

/-- C9: when a `BLOCK_CLAIM` rule fired (making the rule-engine assessment
CRITICAL) but the final cumulative score stays below 50, the assessment
returned by `analyzeClaimEnterprise` has risk level LOW — the final
recompute uses only the 200/100/50 thresholds and discards block status. -/
theorem block_discarded_by_final_recompute (env : OrchEnv) (claim : BenefitsClaim)
    (claimant : ClaimantProfile) (employer : Option EmployerRecord)
    (contextData : EvalContext) (s : CMSState) (ms : List CrossMatch)
    (hok : env.crossMatchE = .ok ms)
    (hblock : (ruleEvalOutcome env.regexTest defaultRules
        (mkEvaluationContext env.derived claim employer contextData)).blocked = true)
    (hscore : ((analyzeClaimEnterprise env claim claimant employer contextData
        s).1).overallRiskScore < 50) :
    (evaluateRules env.regexTest defaultRules env.derived claim claimant employer
        contextData).riskLevel = .CRITICAL
    ∧ ((analyzeClaimEnterprise env claim claimant employer contextData
        s).1).riskLevel = .LOW := by
  constructor
  · unfold evaluateRules
    dsimp only
    unfold determineRiskLevelBRE
    rw [if_pos (Or.inl hblock)]
  · rw [analyze_fst_riskLevel env claim claimant employer contextData s ms hok]
    unfold determineRiskLevelOrch
    rw [if_neg (by linarith), if_neg (by linarith), if_neg (by linarith)]

theorem block_discarded_by_final_recompute_witness :
    (ruleEvalOutcome envEmp.regexTest defaultRules
        (mkEvaluationContext envEmp.derived claim0 (some employerCrit) [])).blocked
      = true
    ∧ ((analyzeClaimEnterprise envEmp claim0 claimant0 (some employerCrit) []
        CMSState.empty).1).overallRiskScore < 50
    ∧ ((analyzeClaimEnterprise envEmp claim0 claimant0 (some employerCrit) []
        CMSState.empty).1).riskLevel = .LOW := by
  have hb : (ruleEvalOutcome envEmp.regexTest defaultRules
      (mkEvaluationContext envEmp.derived claim0 (some employerCrit) [])).blocked
      = true := by
    show (ruleEvalOutcome noRegex defaultRules
      (mkEvaluationContext dInert claim0 (some employerCrit) [])).blocked = true
    rw [ruleEvalOutcome_empCrit]
  have hsc : ((analyzeClaimEnterprise envEmp claim0 claimant0 (some employerCrit)
      [] CMSState.empty).1).overallRiskScore = 0 := by
    simp only [analyzeClaimEnterprise, envEmp]
    simp only [lookupJs, jsTruthy, Bool.false_eq_true, if_false]
    unfold applyCrossMatchBonus
    rw [if_neg (by norm_num)]
    show (evaluateRules noRegex defaultRules dInert claim0 claimant0
      (some employerCrit) []).overallRiskScore = 0
    unfold evaluateRules
    dsimp only
    rw [ruleEvalOutcome_empCrit]
  have hlt : ((analyzeClaimEnterprise envEmp claim0 claimant0 (some employerCrit)
      [] CMSState.empty).1).overallRiskScore < 50 := by
    rw [hsc]; norm_num
  exact ⟨hb, hlt,
    (block_discarded_by_final_recompute envEmp claim0 claimant0 (some employerCrit)
      [] CMSState.empty [] rfl hb hlt).2⟩

/-- C10: for a `caseId` absent from the case store, `updateCaseStatus`
returns `false` and the entire service state — case store, investigation
notes, audit trail, and alert list — is returned unchanged. -/
theorem updateCaseStatus_missing_case_noop (gen : GenEnv) (caseId : String)
    (newStatus : CaseStatus) (updatedBy : String) (reason : Option String)
    (s : CMSState) (h : lookupAssoc caseId s.cases = none) :
    updateCaseStatus gen caseId newStatus updatedBy reason s = (false, s) := by
  unfold updateCaseStatus
  rw [h]

theorem updateCaseStatus_missing_case_noop_witness :
    lookupAssoc "NOPE" CMSState.empty.cases = none ∧
    updateCaseStatus gen0 "NOPE" .CLOSED "U" none CMSState.empty
      = (false, CMSState.empty) :=
  ⟨rfl, updateCaseStatus_missing_case_noop gen0 "NOPE" .CLOSED "U" none
    CMSState.empty rfl⟩

/-- C3: whenever the pipeline inside `analyzeClaimEnterprise`'s `try` fails
(the external cross-match call is the modelled uncaught-failure site), the
orchestrator RETURNS the fixed fallback assessment: score 0, level LOW,
exactly one risk factor with id `SYSTEM_ERROR`, `requiresInvestigation =
true`, `autoApprovalEligible = false`.  Totality of the Lean embedding
witnesses that nothing is thrown to the caller. -/
theorem orchestrator_fallback_on_failure (env : OrchEnv) (claim : BenefitsClaim)
    (claimant : ClaimantProfile) (employer : Option EmployerRecord)
    (contextData : EvalContext) (s : CMSState)
    (herr : env.crossMatchE = .error ()) :
    (analyzeClaimEnterprise env claim claimant employer contextData s).1
      = fallbackAssessment claim claimant
    ∧ (fallbackAssessment claim claimant).overallRiskScore = 0
    ∧ (fallbackAssessment claim claimant).riskLevel = .LOW
    ∧ (fallbackAssessment claim claimant).riskFactors.map (fun f => f.factorId)
        = ["SYSTEM_ERROR"]
    ∧ (fallbackAssessment claim claimant).requiresInvestigation = true
    ∧ (fallbackAssessment claim claimant).autoApprovalEligible = false := by
  refine ⟨?_, rfl, rfl, rfl, rfl, rfl⟩
  simp only [analyzeClaimEnterprise, herr]

theorem orchestrator_fallback_on_failure_witness :
    envErr.crossMatchE = .error () ∧
    (analyzeClaimEnterprise envErr claim0 claimant0 none [] CMSState.empty).1
      = fallbackAssessment claim0 claimant0 :=
  ⟨rfl, (orchestrator_fallback_on_failure envErr claim0 claimant0 none []
    CMSState.empty rfl).1⟩

/-- C4: a `GREATER_THAN` or `LESS_THAN` condition whose field value or
comparison value fails numeric coercion (JavaScript `NaN`) evaluates to
`false`; `evaluateCondition` is a total function, so the failed coercion
never throws and only this condition is affected. -/
theorem numeric_condition_nan_is_false (regexTest : String → String → Bool)
    (condition : RuleCondition) (fieldValue : JsVal)
    (hop : condition.operator = .GREATER_THAN ∨ condition.operator = .LESS_THAN)
    (hnan : jsToNumber fieldValue = none ∨ jsToNumber condition.value = none) :
    evaluateCondition regexTest condition fieldValue = false := by
  rcases hop with h | h
  · simp only [evaluateCondition, h]
    rcases hnan with h' | h'
    · rw [h']; exact numGt_none_left _
    · rw [h']; exact numGt_none_right _
  · simp only [evaluateCondition, h]
    rcases hnan with h' | h'
    · rw [h']; exact numLt_none_left _
    · rw [h']; exact numLt_none_right _

theorem numeric_condition_nan_is_false_witness :
    ((⟨"CX", "f", .GREATER_THAN, .str "abc"⟩ : RuleCondition).operator = .GREATER_THAN
      ∨ (⟨"CX", "f", .GREATER_THAN, .str "abc"⟩ : RuleCondition).operator = .LESS_THAN)
    ∧ (jsToNumber (.str "xyz") = none
        ∨ jsToNumber (⟨"CX", "f", .GREATER_THAN, .str "abc"⟩ : RuleCondition).value = none)
    ∧ evaluateCondition noRegex ⟨"CX", "f", .GREATER_THAN, .str "abc"⟩ (.str "xyz")
        = false :=
  ⟨Or.inl rfl, Or.inl (by decide),
   numeric_condition_nan_is_false noRegex ⟨"CX", "f", .GREATER_THAN, .str "abc"⟩
     (.str "xyz") (Or.inl rfl) (Or.inl (by decide))⟩

/-- C7: `determineCaseType` agrees with the spec's first-matching-check
cascade over risk-factor names, checked in the fixed order
identity/deceased → wage/employment → employer → multiple/pattern, with
`ELIGIBILITY_FRAUD` as the default. -/
theorem determineCaseType_first_match (ra : RiskAssessmentResult) :
    determineCaseType ra = firstMatchingCaseType ra.riskFactors := by
  unfold determineCaseType firstMatchingCaseType caseTypeChecks
  cases h1 : ra.riskFactors.any
      (fun f => strContains f.factorName "Deceased" || strContains f.factorName "Identity") <;>
  cases h2 : ra.riskFactors.any
      (fun f => strContains f.factorName "Wage" || strContains f.factorName "Employment") <;>
  cases h3 : ra.riskFactors.any (fun f => strContains f.factorName "Employer") <;>
  cases h4 : ra.riskFactors.any
      (fun f => strContains f.factorName "Multiple" || strContains f.factorName "Pattern") <;>
  simp [List.find?, h1, h2, h3, h4]

/-- C5: when the derived `ssn_usage_count` exceeds 1 and no other active
rule's conditions all hold, `evaluateRules` over the default catalog yields
`overallRiskScore = 75` (the Duplicate SSN Check rule's single `ADD_SCORE`
action) and `riskLevel = MEDIUM`. -/
theorem duplicate_ssn_only_rule_gives_75_medium
    (regexTest : String → String → Bool) (derived : DerivedMetrics)
    (claim : BenefitsClaim) (claimant : ClaimantProfile)
    (employer : Option EmployerRecord) (contextData : EvalContext)
    (h1 : derived.ssnUsageCount > 1)
    (h2 : evaluateRuleConditions regexTest ruleWAGE001.conditions
        (mkEvaluationContext derived claim employer contextData) = false)
    (h3 : evaluateRuleConditions regexTest ruleEMP001.conditions
        (mkEvaluationContext derived claim employer contextData) = false)
    (h4 : evaluateRuleConditions regexTest ruleBEH001.conditions
        (mkEvaluationContext derived claim employer contextData) = false)
    (h5 : evaluateRuleConditions regexTest ruleXREF001.conditions
        (mkEvaluationContext derived claim employer contextData) = false) :
    (evaluateRules regexTest defaultRules derived claim claimant employer
        contextData).overallRiskScore = 75
    ∧ (evaluateRules regexTest defaultRules derived claim claimant employer
        contextData).riskLevel = .MEDIUM := by
  have hsplit : splitDot "ssn_usage_count" = ["ssn_usage_count"] := by decide
  have hID : evaluateRuleConditions regexTest ruleID001.conditions
      (mkEvaluationContext derived claim employer contextData) = true := by
    simp only [ruleID001, evaluateRuleConditions, List.all_cons, List.all_nil,
      Bool.and_true, evaluateCondition, getFieldValue, hsplit, mkEvaluationContext,
      List.cons_append, lookupJs, walkPath, jsToNumber, numGt]
    simp [h1]
  have hfilter : List.filter (fun r => r.isActive) defaultRules = defaultRules := rfl
  have houtcome : ruleEvalOutcome regexTest defaultRules
      (mkEvaluationContext derived claim employer contextData)
      = { score := 75, blocked := false, requiresInvestigation := false,
          factors := [mkRuleFactor ruleID001] } := by
    unfold ruleEvalOutcome
    rw [hfilter]
    simp only [defaultRules, List.foldl]
    simp only [processRule, hID, h2, h3, h4, h5]
    simp [ruleID001, applyRuleAction]
  constructor
  · show (evaluateRules regexTest defaultRules derived claim claimant employer
        contextData).overallRiskScore = 75
    unfold evaluateRules
    dsimp only
    rw [houtcome]
  · show (evaluateRules regexTest defaultRules derived claim claimant employer
        contextData).riskLevel = .MEDIUM
    unfold evaluateRules
    dsimp only
    rw [houtcome]
    norm_num [determineRiskLevelBRE]

theorem duplicate_ssn_only_rule_gives_75_medium_witness :
    dSSN.ssnUsageCount > 1
    ∧ evaluateRuleConditions noRegex ruleWAGE001.conditions
        (mkEvaluationContext dSSN claim0 none []) = false
    ∧ evaluateRuleConditions noRegex ruleEMP001.conditions
        (mkEvaluationContext dSSN claim0 none []) = false
    ∧ evaluateRuleConditions noRegex ruleBEH001.conditions
        (mkEvaluationContext dSSN claim0 none []) = false
    ∧ evaluateRuleConditions noRegex ruleXREF001.conditions
        (mkEvaluationContext dSSN claim0 none []) = false
    ∧ (evaluateRules noRegex defaultRules dSSN claim0 claimant0 none
        []).overallRiskScore = 75
    ∧ (evaluateRules noRegex defaultRules dSSN claim0 claimant0 none
        []).riskLevel = .MEDIUM := by
  have h1 : dSSN.ssnUsageCount > 1 := by norm_num [dSSN]
  have h2 : evaluateRuleConditions noRegex ruleWAGE001.conditions
      (mkEvaluationContext dSSN claim0 none []) = false := by
    have hs : splitDot "wage_to_industry_ratio" = ["wage_to_industry_ratio"] := by
      decide
    simp only [ruleWAGE001, evaluateRuleConditions, List.all_cons, List.all_nil,
      Bool.and_true, evaluateCondition, getFieldValue, hs, mkEvaluationContext,
      List.cons_append, lookupJs, walkPath, jsToNumber, numGt]
    norm_num [claim0, calculateWageToIndustryRatio]
  have h3 : evaluateRuleConditions noRegex ruleEMP001.conditions
      (mkEvaluationContext dSSN claim0 none []) = false := by
    have hs : splitDot "employer_risk_level" = ["employer_risk_level"] := by decide
    simp only [ruleEMP001, evaluateRuleConditions, List.all_cons, List.all_nil,
      Bool.and_true, evaluateCondition, getFieldValue, hs, mkEvaluationContext,
      List.cons_append, lookupJs, walkPath, jsStrictEq, Option.map, Option.getD]
    simp
  have h4 : evaluateRuleConditions noRegex ruleBEH001.conditions
      (mkEvaluationContext dSSN claim0 none []) = false := by
    have hs : splitDot "claims_last_30_days" = ["claims_last_30_days"] := by decide
    simp only [ruleBEH001, evaluateRuleConditions, List.all_cons, List.all_nil,
      Bool.and_true, evaluateCondition, getFieldValue, hs, mkEvaluationContext,
      List.cons_append, lookupJs, walkPath, jsToNumber, numGt]
    norm_num [dSSN]
  have h5 : evaluateRuleConditions noRegex ruleXREF001.conditions
      (mkEvaluationContext dSSN claim0 none []) = false := by
    have hs : splitDot "death_registry_match" = ["death_registry_match"] := by decide
    simp only [ruleXREF001, evaluateRuleConditions, List.all_cons, List.all_nil,
      Bool.and_true, evaluateCondition, getFieldValue, hs, mkEvaluationContext,
      List.cons_append, lookupJs, walkPath, jsStrictEq]
    simp [dSSN]
  exact ⟨h1, h2, h3, h4, h5,
    (duplicate_ssn_only_rule_gives_75_medium noRegex dSSN claim0 claimant0 none []
      h1 h2 h3 h4 h5).1,
    (duplicate_ssn_only_rule_gives_75_medium noRegex dSSN claim0 claimant0 none []
      h1 h2 h3 h4 h5).2⟩

theorem createFraudCase_cases (gen : GenEnv) (ra : RiskAssessmentResult)
    (claim : BenefitsClaim) (claimant : ClaimantProfile) (initiatedBy : String)
    (s : CMSState) (hfresh : lookupAssoc gen.caseId s.cases = none) :
    ∃ fc, ((createFraudCase gen ra claim claimant initiatedBy s).2).cases
      = s.cases ++ [(gen.caseId, fc)] := by
  unfold createFraudCase
  dsimp only
  unfold addInvestigationNote
  dsimp only
  rw [setAssoc_fresh _ hfresh]
  rw [lookupAssoc_append_self _ hfresh]
  dsimp only
  rw [setAssoc_append_last _ _ hfresh]
  split <;> exact ⟨_, rfl⟩

/-- C1 (amended): in an evaluation whose external calls succeed, a fraud
case is recorded in the case store exactly when the rule-engine assessment
has `requiresInvestigation = true` AND its risk level (which the AI and
cross-match steps never change) is HIGH or CRITICAL —
`requiresInvestigation` alone does not create a case (see the
counterexample). -/
theorem case_created_iff_high_risk_investigation
    (env : OrchEnv) (claim : BenefitsClaim) (claimant : ClaimantProfile)
    (employer : Option EmployerRecord) (contextData : EvalContext) (s : CMSState)
    (ms : List CrossMatch) (hok : env.crossMatchE = .ok ms)
    (hfresh : lookupAssoc env.genEnv.caseId s.cases = none) :
    (((evaluateRules env.regexTest defaultRules env.derived claim claimant employer
          contextData).requiresInvestigation = true
       ∧ ((evaluateRules env.regexTest defaultRules env.derived claim claimant
             employer contextData).riskLevel = .HIGH
          ∨ (evaluateRules env.regexTest defaultRules env.derived claim claimant
              employer contextData).riskLevel = .CRITICAL)) →
      ∃ fc, ((analyzeClaimEnterprise env claim claimant employer contextData
          s).2).cases = s.cases ++ [(env.genEnv.caseId, fc)])
    ∧ (¬((evaluateRules env.regexTest defaultRules env.derived claim claimant
            employer contextData).requiresInvestigation = true
         ∧ ((evaluateRules env.regexTest defaultRules env.derived claim claimant
               employer contextData).riskLevel = .HIGH
            ∨ (evaluateRules env.regexTest defaultRules env.derived claim claimant
                employer contextData).riskLevel = .CRITICAL)) →
      (analyzeClaimEnterprise env claim claimant employer contextData s).2 = s) := by
  have hsnd : (analyzeClaimEnterprise env claim claimant employer contextData s).2
      = (if (evaluateRules env.regexTest defaultRules env.derived claim claimant
            employer contextData).requiresInvestigation = true
         then createFraudCaseIfNeeded env.genEnv
            (applyCrossMatchBonus ms
              (if jsTruthy (lookupJs "justification_text" contextData) = true
               then applyAIEnhancement env.aiFraudScore
                  (evaluateRules env.regexTest defaultRules env.derived claim
                    claimant employer contextData)
               else evaluateRules env.regexTest defaultRules env.derived claim
                    claimant employer contextData))
            claim claimant s
         else s) := by
    simp only [analyzeClaimEnterprise, hok]
    rw [aiCrossStep_requiresInvestigation]
  constructor
  · rintro ⟨hreq, hlev⟩
    rw [hsnd, if_pos hreq]
    unfold createFraudCaseIfNeeded
    rw [aiCrossStep_riskLevel, if_pos hlev]
    exact createFraudCase_cases env.genEnv _ claim claimant _ s hfresh
  · intro hneg
    rw [hsnd]
    by_cases hreq : (evaluateRules env.regexTest defaultRules env.derived claim
        claimant employer contextData).requiresInvestigation = true
    · rw [if_pos hreq]
      unfold createFraudCaseIfNeeded
      rw [aiCrossStep_riskLevel]
      rw [if_neg (fun hlev => hneg ⟨hreq, hlev⟩)]
    · rw [if_neg hreq]

theorem case_created_iff_high_risk_investigation_witness :
    envEmp.crossMatchE = .ok []
    ∧ lookupAssoc envEmp.genEnv.caseId CMSState.empty.cases = none
    ∧ (∃ fc, ((analyzeClaimEnterprise envEmp claim0 claimant0 (some employerCrit)
        [] CMSState.empty).2).cases
        = CMSState.empty.cases ++ [(envEmp.genEnv.caseId, fc)]) := by
  have hreq : (evaluateRules envEmp.regexTest defaultRules envEmp.derived claim0
      claimant0 (some employerCrit) []).requiresInvestigation = true := by
    show (evaluateRules noRegex defaultRules dInert claim0 claimant0
      (some employerCrit) []).requiresInvestigation = true
    unfold evaluateRules
    dsimp only
    rw [ruleEvalOutcome_empCrit]
  have hlev : (evaluateRules envEmp.regexTest defaultRules envEmp.derived claim0
      claimant0 (some employerCrit) []).riskLevel = .CRITICAL := by
    show (evaluateRules noRegex defaultRules dInert claim0 claimant0
      (some employerCrit) []).riskLevel = .CRITICAL
    unfold evaluateRules
    dsimp only
    rw [ruleEvalOutcome_empCrit]
    unfold determineRiskLevelBRE
    rw [if_pos (Or.inl rfl)]
  exact ⟨rfl, rfl,
    (case_created_iff_high_risk_investigation envEmp claim0 claimant0
      (some employerCrit) [] CMSState.empty [] rfl rfl).1 ⟨hreq, Or.inr hlev⟩⟩

/-- C1 counterexample: with only the rapid-filing rule firing the final
assessment carries `requiresInvestigation = true`, yet the case store stays
empty — no fraud case is created, because the rule-engine risk level is
LOW. -/
theorem requires_investigation_without_case_cex :
    ((analyzeClaimEnterprise envBeh claim0 claimant0 none []
        CMSState.empty).1).requiresInvestigation = true
    ∧ ((analyzeClaimEnterprise envBeh claim0 claimant0 none []
        CMSState.empty).2).cases = [] := by
  have hreq : (evaluateRules noRegex defaultRules dBeh claim0 claimant0 none
      []).requiresInvestigation = true := by
    unfold evaluateRules
    dsimp only
    rw [ruleEvalOutcome_beh]
  have hlev : (evaluateRules noRegex defaultRules dBeh claim0 claimant0 none
      []).riskLevel = .LOW := by
    unfold evaluateRules
    dsimp only
    rw [ruleEvalOutcome_beh]
    unfold determineRiskLevelBRE
    rw [if_neg (by norm_num), if_neg (by norm_num), if_neg (by norm_num)]
  constructor
  · rw [analyze_fst_requiresInvestigation envBeh claim0 claimant0 none []
      CMSState.empty [] rfl]
    exact hreq
  · simp only [analyzeClaimEnterprise, envBeh]
    simp only [lookupJs, jsTruthy, Bool.false_eq_true, if_false]
    rw [applyCrossMatchBonus_requiresInvestigation]
    rw [if_pos hreq]
    unfold createFraudCaseIfNeeded
    rw [applyCrossMatchBonus_riskLevel]
    rw [if_neg (by rw [hlev]; decide)]
    rfl

/-- C8: every evidence item seeded by `addEvidence` starts with exactly one
custody record (custodian = collector, reason "Initial collection",
digitally signed), and no service operation removes or reorders the stored
evidence items — each per-case evidence list only ever grows by appending,
so prior items and their custody chains are untouched. -/
theorem evidence_chain_append_only (s : CMSState) (op : CMSOp)
    (hfresh : opFresh op s) :
    (∀ caseId, ∃ rest,
        evidenceOf (applyOp s op) caseId = evidenceOf s caseId ++ rest)
    ∧ (∀ (gen : GenEnv) (caseId eTy desc col : String) (fp ss : Option String),
        evidenceOf (applyOp s (.addEvidenceOp gen caseId eTy desc col fp ss)) caseId
          = evidenceOf s caseId ++ [mkEvidenceItem gen caseId eTy desc col fp ss]
        ∧ (mkEvidenceItem gen caseId eTy desc col fp ss).chainOfCustody
          = [⟨gen.custodyId, gen.evidenceId, col, gen.now, "Initial collection",
              true⟩]) := by
  constructor
  · intro caseId
    cases op with
    | createCase gen ra claim claimant initiatedBy =>
      simp only [opFresh] at hfresh
      simp only [applyOp]
      unfold evidenceOf
      rw [createFraudCase_evidence]
      by_cases hc : caseId = gen.caseId
      · subst hc
        rw [lookupAssoc_setAssoc_self, hfresh]
        exact ⟨[], by simp⟩
      · rw [lookupAssoc_setAssoc_ne _ _ hc]
        exact ⟨[], by simp⟩
    | updateStatus gen caseId' newStatus updatedBy reason =>
      simp only [applyOp]
      unfold evidenceOf
      rw [updateCaseStatus_evidence]
      exact ⟨[], by simp⟩
    | addNote gen caseId' investigatorId noteType content isConfidential =>
      simp only [applyOp]
      unfold evidenceOf
      rw [addInvestigationNote_evidence]
      exact ⟨[], by simp⟩
    | addEvidenceOp gen caseId' eTy desc col fp ss =>
      simp only [applyOp]
      unfold evidenceOf
      rw [addEvidence_evidence]
      by_cases hc : caseId = caseId'
      · subst hc
        rw [lookupAssoc_setAssoc_self]
        exact ⟨[mkEvidenceItem gen caseId eTy desc col fp ss], by simp⟩
      · rw [lookupAssoc_setAssoc_ne _ _ hc]
        exact ⟨[], by simp⟩
    | createAlertOp gen alertData =>
      simp only [applyOp]
      unfold evidenceOf
      rw [createSystemAlert_evidence]
      exact ⟨[], by simp⟩
  · intro gen caseId eTy desc col fp ss
    refine ⟨?_, rfl⟩
    simp only [applyOp]
    unfold evidenceOf
    rw [addEvidence_evidence, lookupAssoc_setAssoc_self]
    rfl

theorem evidence_chain_append_only_witness :
    opFresh (CMSOp.addEvidenceOp gen0 "C1" "DOCUMENT" "desc" "INV" none none)
      CMSState.empty
    ∧ evidenceOf (applyOp CMSState.empty
        (CMSOp.addEvidenceOp gen0 "C1" "DOCUMENT" "desc" "INV" none none)) "C1"
      = evidenceOf CMSState.empty "C1"
        ++ [mkEvidenceItem gen0 "C1" "DOCUMENT" "desc" "INV" none none] :=
  ⟨trivial,
   ((evidence_chain_append_only CMSState.empty
      (CMSOp.addEvidenceOp gen0 "C1" "DOCUMENT" "desc" "INV" none none)
      trivial).2 gen0 "C1" "DOCUMENT" "desc" "INV" none none).1⟩

/-- C6 (amended): the `AUTOMATED_FILING_SCHEME` entry is detected exactly
when the variance of inter-arrival times between consecutive claims (sorted
by creation date) is below 10% of the mean interval and there are MORE than
10 inter-arrival samples (the code's `timeDiffs.length > 10`, i.e. at least
11 samples, not the spec's "at least 10"). -/
theorem automated_filing_detected_amended (claims : List BenefitsClaim)
    (claimants : List ClaimantProfile) :
    detectSchemeDetected automatedFilingScheme claims claimants
      = specAutomatedFlagAmended claims := by
  unfold detectSchemeDetected automatedFilingScheme automatedFilingDetect
    specAutomatedFlagAmended
  simp [div_eq_mul_inv]

/-- C6 counterexample: eleven perfectly regular claims give exactly 10
inter-arrival samples with zero variance; the spec's flagging condition (at
least 10 samples) holds, but the code does not flag the batch. -/
theorem automated_filing_threshold_cex :
    specAutomatedFlag claims11 = true
    ∧ detectSchemeDetected automatedFilingScheme claims11 [] = false := by
  constructor <;>
    norm_num [specAutomatedFlag, detectSchemeDetected, automatedFilingScheme,
      automatedFilingDetect, claims11, claimAt, sortByCreatedDate, insertByDate,
      interArrivalDiffs]

end FraudIQ
